import Mathlib

/-!
Verification development for the native-viewer scene decoding and material
compositing engine (src/src/native-viewer/main.js).

The JavaScript source is shallowly embedded:
  * 32-bit float values are modelled as rationals (scene buffers cannot hold
    NaN/Infinity producing inputs relevant to the verified claims, and the
    claims under study concern exact data-flow rather than rounding);
  * quantities produced by `Math.sqrt` and trigonometry are modelled over the
    real numbers;
  * fallible operations are modelled with `Option` / `Except`;
  * asynchronous resource loads (texture fetches) are modelled by explicit
    resolver oracles `String → Option τ`.
-/

/-! ## JavaScript primitives -/

/-- Result of JS `Number(...)` coercion on a manifest field: `none` models NaN
(non-numeric / absent input), `some q` a finite numeric value.  JSON cannot
encode infinities, so finite values cover all reachable inputs. -/
def JSNum : Type := Option ℚ

instance : Inhabited JSNum := ⟨(none : Option ℚ)⟩

/-- main.js `clamp01`: parse as number, fall back when not finite, clamp to
the unit interval (lines 164-170). -/
def clamp01 (value : JSNum) (fallback : ℚ) : ℚ :=
  match value with
  | none => fallback
  | some parsed => min (max parsed 0) 1

/-- JS `Math.floor(a / b)` on 32-bit integers: true flooring division. -/
def jsFloorDiv (a b : ℤ) : ℤ := Int.fdiv a b

/-- JS `String.prototype.trim`: strip leading and trailing whitespace. -/
def jsTrim (s : String) : String :=
  ⟨((s.data.dropWhile Char.isWhitespace).reverse.dropWhile
      Char.isWhitespace).reverse⟩

/-! ## Binary buffer views (mesh record table) -/

/-- A raw byte buffer exposed simultaneously through an `Int32Array` view and
a `Float32Array` view (main.js lines 530-531).  The two views alias the same
bytes; since no claim depends on the bit-level reinterpretation between the
integer and float reading of one word, the views are modelled as parallel
lists of equal length. -/
structure RawBuffer where
  ints : List ℤ
  floats : List ℚ

/-- Axis-aligned bounds record decoded from the bounds buffer
(main.js lines 574-595). -/
structure BoundsBox where
  minX : ℚ
  minY : ℚ
  minZ : ℚ
  maxX : ℚ
  maxY : ℚ
  maxZ : ℚ
deriving DecidableEq

/-- One parsed mesh record (main.js lines 548-572). -/
structure MeshProps where
  nodeId : ℤ
  materialIdx : ℤ
  useFaces16 : Bool
  faceByteOffset : ℤ
  faceCnt : ℤ
  vertexByteOffset : ℤ
  vertexCnt : ℤ
  normalByteOffset : ℤ
  uv0ByteOffset : ℤ
  uv1ByteOffset : ℤ
  lightMapIdx : ℤ
  uv1CoordUScale : ℚ
  uv1CoordVScale : ℚ
  uv1CoordUOffset : ℤ
  uv1CoordVOffset : ℤ
  transformByteOffset : ℤ
  boundsByteOffset : ℤ
  quantVertexRange : ℚ
  quantVertexMax : ℤ
  quantUv0Range : ℚ
  quantUv0Max : ℤ
  autoLightmapResolution : ℤ
  bounds : Option BoundsBox

/-- Build the record starting at word `offset` of the mesh buffer
(main.js lines 542-596).  `iAt`/`fAt` mirror `ints[...]`/`floats[...]`
element reads (out-of-range typed-array reads yield `undefined`; the only
such read reachable here is the version-2 `autoLightmapResolution` word,
irrelevant to every claim, modelled as 0). -/
def meshRecordAt (version : ℤ) (ints : List ℤ) (floats : List ℚ)
    (boundsFloats : List ℚ) (offset : ℕ) : MeshProps :=
  let iAt : ℕ → ℤ := fun k => ints.getD (offset + k) 0
  let fAt : ℕ → ℚ := fun k => floats.getD (offset + k) 0
  let boundsByteOffset := iAt 16
  let boundsOffset := jsFloorDiv boundsByteOffset 4
  let bounds :=
    if 0 ≤ boundsOffset ∧ boundsOffset + 6 < (boundsFloats.length : ℤ) then
      let bAt : ℕ → ℚ := fun k => boundsFloats.getD (boundsOffset.toNat + k) 0
      -- max components are stored first, min components after (lines 576-581)
      some { minX := bAt 3, minY := bAt 4, minZ := bAt 5
             maxX := bAt 0, maxY := bAt 1, maxZ := bAt 2 }
    else
      none
  { nodeId := iAt 0
    materialIdx := iAt 1
    useFaces16 := iAt 2 == 1
    faceByteOffset := iAt 3
    faceCnt := iAt 4
    vertexByteOffset := iAt 5
    vertexCnt := iAt 6
    normalByteOffset := iAt 7
    uv0ByteOffset := iAt 8
    uv1ByteOffset := iAt 9
    lightMapIdx := iAt 10
    uv1CoordUScale := fAt 11
    uv1CoordVScale := fAt 12
    uv1CoordUOffset := iAt 13
    uv1CoordVOffset := iAt 14
    transformByteOffset := iAt 15
    boundsByteOffset := boundsByteOffset
    quantVertexRange := fAt 17
    quantVertexMax := iAt 18
    quantUv0Range := fAt 19
    quantUv0Max := iAt 20
    autoLightmapResolution := if version ≥ 2 then iAt 21 else -1
    bounds := bounds }

/-- The record loop of `parseMeshProps` (main.js lines 540-599): iterate from
word 2 in steps of `stride` while `offset + 20 < ints.length`, silently
dropping records whose face or vertex count is non-positive.  The loop is
written with explicit fuel; since `stride ≥ 21`, `ints.length` iterations
always suffice to reach the loop exit. -/
def parseMeshRecords (version : ℤ) (ints : List ℤ) (floats : List ℚ)
    (boundsFloats : List ℚ) (stride : ℕ) : ℕ → ℕ → List MeshProps
  | 0, _ => []
  | fuel + 1, offset =>
    if offset + 20 < ints.length then
      let faceCount := ints.getD (offset + 4) 0
      let vertexCount := ints.getD (offset + 6) 0
      let rest :=
        parseMeshRecords version ints floats boundsFloats stride fuel
          (offset + stride)
      if faceCount ≤ 0 ∨ vertexCount ≤ 0 then rest
      else meshRecordAt version ints floats boundsFloats offset :: rest
    else []

/-- main.js `parseMeshProps` (lines 529-602).  The `stride < 21` hard
compatibility fence throws; this is modelled with `Except`. -/
def parseMeshProps (meshesBuffer boundsBuffer : RawBuffer) :
    Except String (List MeshProps) :=
  let ints := meshesBuffer.ints
  let floats := meshesBuffer.floats
  let boundsFloats := boundsBuffer.floats
  let version := ints.getD 0 0
  let stride := ints.getD 1 0
  if stride < 21 then
    Except.error ("Unsupported mesh layout stride: " ++ toString stride)
  else
    Except.ok
      (parseMeshRecords version ints floats boundsFloats stride.toNat
        ints.length 2)

/-! ## Geometry reconstruction -/

/-- The typed views over the binary scene buffers built in `buildScene`
(main.js lines 1853-1862).  `faces16`/`faces32` and the UV views are `none`
when their backing buffer is empty; the three vertex views alias one buffer at
different widths and are modelled as independent lists. -/
structure BufferViews where
  faces16 : Option (List ℕ)
  faces32 : Option (List ℕ)
  vertices8 : List ℤ
  vertices16 : List ℤ
  vertices32 : List ℤ
  transforms : List ℚ
  uvsU16 : Option (List ℕ)
  uvsF32 : Option (List ℚ)

/-- main.js `minBytesToHold` (lines 498-507). -/
def minBytesToHold (maxValue : ℤ) : ℕ :=
  let absolute := maxValue.natAbs
  if absolute ≤ 0x7f then 1
  else if absolute ≤ 0x7fff then 2
  else 4

/-- main.js `getFloat32At` (lines 520-527): bounds-checked float subarray. -/
def getFloat32At (floatBuffer : List ℚ) (byteOffset : ℤ) (length : ℕ) :
    Option (List ℚ) :=
  let start := jsFloorDiv byteOffset 4
  let stop := start + length
  if start < 0 ∨ stop > (floatBuffer.length : ℤ) then none
  else some ((floatBuffer.drop start.toNat).take length)

/-- main.js `transformPoint` (lines 604-608): apply the row-major 3×4 upper
part of the stored 4×4 transform. -/
def transformPoint (matrix : List ℚ) (x y z : ℚ) : ℚ × ℚ × ℚ :=
  let m : ℕ → ℚ := fun k => matrix.getD k 0
  (m 0 * x + m 1 * y + m 2 * z + m 3,
   m 4 * x + m 5 * y + m 6 * z + m 7,
   m 8 * x + m 9 * y + m 10 * z + m 11)

/-- Vertex view selection of `decodeMeshGeometry` (main.js lines 611-628):
the integer view of minimal byte width holding `quantVertexMax`. -/
def selectedVertexArray (meshProps : MeshProps) (views : BufferViews) :
    List ℤ :=
  let vertexBytes := minBytesToHold meshProps.quantVertexMax
  if vertexBytes = 1 then views.vertices8
  else if vertexBytes = 2 then views.vertices16
  else views.vertices32

/-- Element offset into the selected vertex view (main.js lines 619-628). -/
def selectedVertexElementOffset (meshProps : MeshProps) : ℤ :=
  let vertexBytes := minBytesToHold meshProps.quantVertexMax
  if vertexBytes = 1 then meshProps.vertexByteOffset
  else if vertexBytes = 2 then jsFloorDiv meshProps.vertexByteOffset 2
  else jsFloorDiv meshProps.vertexByteOffset 4

/-- Dequantization scale factor of `decodeMeshGeometry`
(main.js lines 612-615): `quantVertexRange / quantVertexMax`, or 1 when
`quantVertexMax` is zero. -/
def vertexFactor (meshProps : MeshProps) : ℚ :=
  if meshProps.quantVertexMax ≠ 0 then
    meshProps.quantVertexRange / (meshProps.quantVertexMax : ℚ)
  else 1

/-- Renderable geometry produced by the decoder: flattened world-space
positions, reconstructed face indices, optional flattened UVs.  Derived
attributes (vertex normals, bounding volumes) are produced afterwards by
three.js library calls and are not part of the decode contract. -/
structure DecodedGeometry where
  position : List ℚ
  index : List ℕ
  uv : Option (List ℚ)
deriving DecidableEq

/-- UV reconstruction of `decodeMeshGeometry` (main.js lines 674-697): a
zero-initialised buffer, filled from the float view when `quantUv0Max = 0`
and from the scaled 16-bit view otherwise; an out-of-range source region
leaves the zero fill in place. -/
def decodeUvChannel (meshProps : MeshProps) (uvsU16 : List ℕ)
    (uvsF32 : List ℚ) : List ℚ :=
  let uvElementCount := (meshProps.vertexCnt * 2).toNat
  if meshProps.quantUv0Max = 0 then
    let uvElementOffset := jsFloorDiv meshProps.uv0ByteOffset 4
    if uvElementOffset + uvElementCount ≤ (uvsF32.length : ℤ) then
      (List.range uvElementCount).map fun i =>
        uvsF32.getD (uvElementOffset.toNat + i) 0
    else List.replicate uvElementCount 0
  else
    let uvFactor :=
      if meshProps.quantUv0Max ≠ 0 then
        meshProps.quantUv0Range / (meshProps.quantUv0Max : ℚ)
      else 1
    let uvElementOffset := jsFloorDiv meshProps.uv0ByteOffset 2
    if uvElementOffset + uvElementCount ≤ (uvsU16.length : ℤ) then
      (List.range uvElementCount).map fun i =>
        (uvsU16.getD (uvElementOffset.toNat + i) 0 : ℚ) * uvFactor
    else List.replicate uvElementCount 0

/-- The reconstructed world-space position buffer of `decodeMeshGeometry`
(main.js lines 659-666): dequantize each stored vertex with the uniform
scale factor and apply the per-record transform. -/
def decodedPositions (meshProps : MeshProps) (views : BufferViews)
    (transformMatrix : List ℚ) : List ℚ :=
  (List.range meshProps.vertexCnt.toNat).flatMap fun vertexIndex =>
    let sourceIndex :=
      (selectedVertexElementOffset meshProps + vertexIndex * 3).toNat
    let x := ((selectedVertexArray meshProps views).getD sourceIndex 0 : ℚ) *
      vertexFactor meshProps
    let y :=
      ((selectedVertexArray meshProps views).getD (sourceIndex + 1) 0 : ℚ) *
        vertexFactor meshProps
    let z :=
      ((selectedVertexArray meshProps views).getD (sourceIndex + 2) 0 : ℚ) *
        vertexFactor meshProps
    let point := transformPoint transformMatrix x y z
    [point.1, point.2.1, point.2.2]

/-- The reconstructed index buffer of `decodeMeshGeometry` (main.js lines
668-672): any raw face index at or above the vertex count becomes 0. -/
def decodedIndices (meshProps : MeshProps) (faceArray : List ℕ) : List ℕ :=
  let faceElementOffset :=
    jsFloorDiv meshProps.faceByteOffset
      (if meshProps.useFaces16 then 2 else 4)
  (List.range (meshProps.faceCnt * 3).toNat).map fun i =>
    let rawIndex := faceArray.getD (faceElementOffset.toNat + i) 0
    if (rawIndex : ℤ) < meshProps.vertexCnt then rawIndex else 0

/-- main.js `decodeMeshGeometry` (lines 610-709).  Returns `none` ("no
geometry produced") whenever an addressed read would fall outside its backing
buffer or the required face view is absent; the `Option` codomain models the
no-throw decode contract. -/
def decodeMeshGeometry (meshProps : MeshProps) (views : BufferViews) :
    Option DecodedGeometry :=
  if selectedVertexElementOffset meshProps < 0 ∨
      selectedVertexElementOffset meshProps + meshProps.vertexCnt * 3 >
        ((selectedVertexArray meshProps views).length : ℤ) then
    none
  else
    match getFloat32At views.transforms meshProps.transformByteOffset 16 with
    | none => none
    | some transformMatrix =>
      match (if meshProps.useFaces16 then views.faces16 else views.faces32) with
      | none => none
      | some faceArray =>
        if jsFloorDiv meshProps.faceByteOffset
              (if meshProps.useFaces16 then 2 else 4) < 0 ∨
            jsFloorDiv meshProps.faceByteOffset
                (if meshProps.useFaces16 then 2 else 4) +
              meshProps.faceCnt * 3 >
              (faceArray.length : ℤ) then
          none
        else
          some { position := decodedPositions meshProps views transformMatrix
                 index := decodedIndices meshProps faceArray
                 uv :=
                   if 0 ≤ meshProps.uv0ByteOffset then
                     match views.uvsF32, views.uvsU16 with
                     | some uvsF32, some uvsU16 =>
                       some (decodeUvChannel meshProps uvsU16 uvsF32)
                     | _, _ => none
                   else none }

/-- The decode loop of `buildScene` (main.js lines 1869-1907) restricted to
its counting effect: a record decoding to `none` increments the skipped count,
a successful decode increments the built count. -/
def decodeSceneCounts (props : List MeshProps) (views : BufferViews) :
    ℕ × ℕ :=
  props.foldl
    (fun acc p =>
      match decodeMeshGeometry p views with
      | none => (acc.1, acc.2 + 1)
      | some _ => (acc.1 + 1, acc.2))
    (0, 0)

/-- Load-complete status line of `buildScene` (main.js lines 1947-1949),
without the timing suffix. -/
def loadCompleteStatus (builtMeshes skippedMeshes : ℕ) : String :=
  "Loaded " ++ toString builtMeshes ++ " meshes (" ++
    toString skippedMeshes ++ " skipped)"

/-! ## Concrete scene fixture

A three-record mesh table: record A (node 1, 3 vertices, 1 face), record B
(node 2, zero vertex count — an inert placeholder), record C (node 3,
3 vertices, 1 face whose first stored face index 9 is deliberately corrupt).
Word layout per record: nodeId, materialIdx, useFaces16, faceByteOffset,
faceCnt, vertexByteOffset, vertexCnt, normalByteOffset, uv0ByteOffset,
uv1ByteOffset, lightMapIdx, uv1 scales/offsets (4 words), transformByteOffset,
boundsByteOffset, quantVertexRange, quantVertexMax, quantUv0Range,
quantUv0Max. -/

/-- Fixture record A: a decodable record with three vertices and one face. -/
def fixtureRecordA : List ℤ :=
  [1, 0, 1, 0, 1, 0, 3, -1, -1, 0, 0, 0, 0, 0, 0, 0, -1, 0, 0, 0, 0]

/-- Fixture record B: zero vertex count (placeholder, must be skipped). -/
def fixtureRecordB : List ℤ :=
  [2, 0, 1, 0, 1, 0, 0, -1, -1, 0, 0, 0, 0, 0, 0, 0, -1, 0, 0, 0, 0]

/-- Fixture record C: decodable, reading vertex bytes 9.. and face elements
3..5 (whose first raw index, 9, exceeds the vertex count). -/
def fixtureRecordC : List ℤ :=
  [3, 0, 1, 6, 1, 9, 3, -1, -1, 0, 0, 0, 0, 0, 0, 0, -1, 0, 0, 0, 0]

/-- Fixture mesh-record buffer: version 1, stride 21, records A, B, C. -/
def fixtureMeshesBuffer : RawBuffer :=
  { ints := [1, 21] ++ fixtureRecordA ++ fixtureRecordB ++ fixtureRecordC
    floats := List.replicate 65 0 }

/-- Fixture bounds buffer (empty: no record carries explicit bounds). -/
def fixtureBoundsBuffer : RawBuffer := { ints := [], floats := [] }

/-- Row-major affine identity transform as 16 stored floats. -/
def identityTransform16 : List ℚ :=
  [1, 0, 0, 0, 0, 1, 0, 0, 0, 0, 1, 0, 0, 0, 0, 1]

/-- Fixture buffer views: 18 vertex bytes (two records of 9), six 16-bit face
indices with one deliberately corrupted entry (9), an identity transform. -/
def fixtureViews : BufferViews :=
  { faces16 := some [0, 1, 2, 9, 1, 2]
    faces32 := none
    vertices8 := [1, 2, 3, 4, 5, 6, 7, 8, 9, 10, 11, 12, 13, 14, 15, 16, 17, 18]
    vertices16 := []
    vertices32 := []
    transforms := identityTransform16
    uvsU16 := none
    uvsF32 := none }

/-! ## Texture candidate resolution -/

/-- JS `Array.from(new Set(l))`: first occurrence order deduplication
(main.js line 749). -/
def uniqueInOrder (candidates : List String) : List String :=
  candidates.foldl (fun acc url => if url ∈ acc then acc else acc ++ [url]) []

/-- The `attempt` recursion of `loadTextureFromCandidates` (main.js lines
753-773): try each candidate in order, moving to the next only after the
loader reports failure for the previous one; a success resolves immediately
with the texture tagged with its winning source URL. -/
def attemptCandidates {τ : Type} (load : String → Option τ) :
    List String → Option (τ × String)
  | [] => none
  | url :: rest =>
    match load url with
    | some texture => some (texture, url)
    | none => attemptCandidates load rest

/-- main.js `loadTextureFromCandidates` (lines 748-777).  The asynchronous
loader is modelled by the oracle `load`; the resolved pair carries
`texture.userData.sourceUrl`. -/
def loadTextureFromCandidates {τ : Type} (load : String → Option τ)
    (candidates : List String) : Option (τ × String) :=
  let uniqueCandidates := uniqueInOrder (candidates.filter (fun c => c ≠ ""))
  attemptCandidates load uniqueCandidates

/-! ## Material construction -/

/-- RGB color with components in the unit interval (THREE.Color). -/
structure MaterialColor where
  r : ℚ
  g : ℚ
  b : ℚ
deriving DecidableEq

/-- THREE.Color from a hex byte triple. -/
def colorOfBytes (rByte gByte bByte : ℚ) : MaterialColor :=
  { r := rByte / 255, g := gByte / 255, b := bByte / 255 }

/-- main.js `rgbArrayToColor` (lines 509-518): a length-3 numeric array gives
a channel-wise clamped color, anything else the fallback color. -/
def rgbArrayToColor (value : Option (List JSNum)) (fallback : MaterialColor) :
    MaterialColor :=
  match value with
  | some channels =>
    if 3 ≤ channels.length then
      { r := clamp01 (channels.getD 0 (none : Option ℚ)) 1
        g := clamp01 (channels.getD 1 (none : Option ℚ)) 1
        b := clamp01 (channels.getD 2 (none : Option ℚ)) 1 }
    else fallback
  | none => fallback

/-- Material sidedness. -/
inductive MaterialSide where
  | front
  | double
deriving DecidableEq

/-- Base-color texture reference of a scene material (atlas fields are not
needed by the verified claims beyond the id). -/
structure TexRef where
  id : String
deriving DecidableEq

/-- One entry of the manifest `materials[]` array, with JSON looseness kept:
numeric fields are `JSNum`, `baseColor` is `some` only when authored as an
array, `emissive` keeps its authored payload (`some` iff present and truthy),
`doubleSided` is its truthiness. -/
structure SceneMaterial where
  name : Option String
  baseColorTexture : Option TexRef
  baseColor : Option (List JSNum)
  roughness : JSNum
  metallic : JSNum
  opacity : JSNum
  doubleSided : Bool
  emissive : Option (List JSNum)
  emissionStrength : JSNum

/-- Substring test used to model the literal regular expression
`/shallow-sea|sea-waves-explosion|duo-botanical/` (main.js lines 859-860). -/
def containsToken (s pattern : String) : Bool :=
  decide (pattern.toList <:+: s.toList)

/-- Match against the forced-double-sided decorative overlay allow-list. -/
def matchesExteriorCardToken (s : String) : Bool :=
  containsToken s "shallow-sea" || containsToken s "sea-waves-explosion" ||
    containsToken s "duo-botanical"

/-- Configuration computed by `materialConfigFromSceneEntry`. -/
structure MaterialConfig where
  color : MaterialColor
  roughness : ℚ
  metalness : ℚ
  transparent : Bool
  opacity : ℚ
  side : MaterialSide
  emissive : Option MaterialColor
  emissiveIntensity : ℚ

/-- JS `Number(v) < 1` (NaN compares false). -/
def jsNumLtOne (v : JSNum) : Bool :=
  match v with
  | some q => decide (q < 1)
  | none => false

/-- main.js `materialConfigFromSceneEntry` (lines 855-879). -/
def materialConfigFromSceneEntry (sceneMaterial : SceneMaterial) :
    MaterialConfig :=
  let materialName := (sceneMaterial.name.getD "").toLower
  let baseTextureId :=
    ((sceneMaterial.baseColorTexture.map (fun t => t.id)).getD "").toLower
  let forceDoubleSidedExteriorCard :=
    matchesExteriorCardToken materialName ||
      matchesExteriorCardToken baseTextureId
  { color := rgbArrayToColor sceneMaterial.baseColor (colorOfBytes 255 255 255)
    roughness := clamp01 sceneMaterial.roughness (1 / 2)
    metalness := clamp01 sceneMaterial.metallic 0
    transparent := jsNumLtOne sceneMaterial.opacity
    opacity := sceneMaterial.opacity.getD 1
    side :=
      if forceDoubleSidedExteriorCard || sceneMaterial.doubleSided then
        MaterialSide.double
      else MaterialSide.front
    emissive :=
      if sceneMaterial.emissive.isSome then
        some (rgbArrayToColor sceneMaterial.baseColor (colorOfBytes 0 0 0))
      else none
    emissiveIntensity := sceneMaterial.emissionStrength.getD 1 }

/-- The built MeshStandardMaterial state relevant to the claims, with
three.js defaults for the emissive term (black, intensity 1) that
`buildMaterialMap` overrides only when the config carries an emissive color.
`τ` is the abstract texture type delivered by the resolver oracle. -/
structure StandardMaterial (τ : Type) where
  color : MaterialColor
  roughness : ℚ
  metalness : ℚ
  transparent : Bool
  opacity : ℚ
  side : MaterialSide
  emissive : MaterialColor
  emissiveIntensity : ℚ
  map : Option τ

/-- The fallback material of `buildMaterialMap` (main.js lines 901-905). -/
def fallbackStandardMaterial (τ : Type) : StandardMaterial τ :=
  { color := colorOfBytes 0xa4 0x9a 0x90
    roughness := 7 / 10
    metalness := 1 / 20
    transparent := false
    opacity := 1
    side := MaterialSide.front
    emissive := colorOfBytes 0 0 0
    emissiveIntensity := 1
    map := none }

/-- The per-index material construction of `buildMaterialMap` (main.js lines
915-937) for an entry present in the manifest: build the standard material
from the config, set the emissive pair only when configured, then attach the
resolved base-color map when available. -/
def buildMaterialForEntry {τ : Type}
    (resolveTexture : Option TexRef → Option τ) (source : SceneMaterial) :
    StandardMaterial τ :=
  let config := materialConfigFromSceneEntry source
  let material : StandardMaterial τ :=
    { color := config.color
      roughness := config.roughness
      metalness := config.metalness
      transparent := config.transparent
      opacity := config.opacity
      side := config.side
      emissive := colorOfBytes 0 0 0
      emissiveIntensity := 1
      map := none }
  let material :=
    match config.emissive with
    | some emissiveColor =>
      { material with
          emissive := emissiveColor
          emissiveIntensity := config.emissiveIntensity }
    | none => material
  match resolveTexture source.baseColorTexture with
  | some baseMap => { material with map := some baseMap }
  | none => material

/-- main.js `buildMaterialMap` (lines 899-939): one material per used index,
falling back when the manifest has no entry at that index. -/
def buildMaterialMap {τ : Type} (materials : List SceneMaterial)
    (usedMaterialIndexes : List ℤ)
    (resolveTexture : Option TexRef → Option τ) :
    List (ℤ × StandardMaterial τ) :=
  usedMaterialIndexes.map fun index =>
    (index,
      match (if 0 ≤ index then materials.get? index.toNat else none) with
      | none => fallbackStandardMaterial τ
      | some source => buildMaterialForEntry resolveTexture source)

/-! ## three.js vector and matrix algebra (real-valued) -/

/-- three.js `Vector3`. -/
@[ext]
structure Vec3 where
  x : ℝ
  y : ℝ
  z : ℝ

instance : Inhabited Vec3 := ⟨⟨0, 0, 0⟩⟩

def vadd (a b : Vec3) : Vec3 := ⟨a.x + b.x, a.y + b.y, a.z + b.z⟩

def vsub (a b : Vec3) : Vec3 := ⟨a.x - b.x, a.y - b.y, a.z - b.z⟩

def vsmul (c : ℝ) (v : Vec3) : Vec3 := ⟨c * v.x, c * v.y, c * v.z⟩

def vdot (a b : Vec3) : ℝ := a.x * b.x + a.y * b.y + a.z * b.z

def vcross (a b : Vec3) : Vec3 :=
  ⟨a.y * b.z - a.z * b.y, a.z * b.x - a.x * b.z, a.x * b.y - a.y * b.x⟩

def vlengthSq (v : Vec3) : ℝ := v.x * v.x + v.y * v.y + v.z * v.z

noncomputable def vlength (v : Vec3) : ℝ := Real.sqrt (vlengthSq v)

/-- three.js `Vector3.normalize`: divide by the length, or by 1 when the
length is zero (`divideScalar(this.length() || 1)`). -/
noncomputable def vnormalize (v : Vec3) : Vec3 :=
  vsmul (1 / (if vlength v = 0 then 1 else vlength v)) v

/-- Sum of a list of vectors.  The source accumulates `bucket.sumX += ...`
in reference order; over the exact reals vector addition is associative and
commutative, so the fold direction is immaterial and `foldr` is used for
structural convenience. -/
def vsum (l : List Vec3) : Vec3 := l.foldr vadd ⟨0, 0, 0⟩

/-- The world up axis of the viewer (`scene.up.set(0, 0, 1)`). -/
def worldUp : Vec3 := ⟨0, 0, 1⟩

/-- three.js `Matrix3`, column-major elements. -/
@[ext]
structure Mat3 where
  e0 : ℝ
  e1 : ℝ
  e2 : ℝ
  e3 : ℝ
  e4 : ℝ
  e5 : ℝ
  e6 : ℝ
  e7 : ℝ
  e8 : ℝ

/-- three.js `Matrix4`, column-major elements. -/
structure Mat4 where
  e0 : ℝ
  e1 : ℝ
  e2 : ℝ
  e3 : ℝ
  e4 : ℝ
  e5 : ℝ
  e6 : ℝ
  e7 : ℝ
  e8 : ℝ
  e9 : ℝ
  e10 : ℝ
  e11 : ℝ
  e12 : ℝ
  e13 : ℝ
  e14 : ℝ
  e15 : ℝ

def mat3Identity : Mat3 := ⟨1, 0, 0, 0, 1, 0, 0, 0, 1⟩

def mat4Identity : Mat4 :=
  ⟨1, 0, 0, 0, 0, 1, 0, 0, 0, 0, 1, 0, 0, 0, 0, 1⟩

instance : Inhabited Mat4 := ⟨mat4Identity⟩

/-- three.js `Vector3.applyMatrix3`. -/
def applyMatrix3 (m : Mat3) (v : Vec3) : Vec3 :=
  ⟨m.e0 * v.x + m.e3 * v.y + m.e6 * v.z,
   m.e1 * v.x + m.e4 * v.y + m.e7 * v.z,
   m.e2 * v.x + m.e5 * v.y + m.e8 * v.z⟩

/-- three.js `Vector3.applyMatrix4` (with the projective `w` division, a
no-op on the affine matrices of this scene format). -/
noncomputable def applyMatrix4 (m : Mat4) (v : Vec3) : Vec3 :=
  let w := 1 / (m.e3 * v.x + m.e7 * v.y + m.e11 * v.z + m.e15)
  ⟨(m.e0 * v.x + m.e4 * v.y + m.e8 * v.z + m.e12) * w,
   (m.e1 * v.x + m.e5 * v.y + m.e9 * v.z + m.e13) * w,
   (m.e2 * v.x + m.e6 * v.y + m.e10 * v.z + m.e14) * w⟩

/-- three.js `Matrix3.setFromMatrix4`: the upper-left 3×3 block. -/
def m3FromMat4 (m : Mat4) : Mat3 :=
  ⟨m.e0, m.e1, m.e2, m.e4, m.e5, m.e6, m.e8, m.e9, m.e10⟩

/-- three.js `Matrix3.invert`: cofactor inverse, or the zero matrix when the
determinant vanishes. -/
noncomputable def m3invert (m : Mat3) : Mat3 :=
  let n11 := m.e0
  let n21 := m.e1
  let n31 := m.e2
  let n12 := m.e3
  let n22 := m.e4
  let n32 := m.e5
  let n13 := m.e6
  let n23 := m.e7
  let n33 := m.e8
  let t11 := n33 * n22 - n32 * n23
  let t12 := n32 * n13 - n33 * n12
  let t13 := n23 * n12 - n22 * n13
  let det := n11 * t11 + n21 * t12 + n31 * t13
  if det = 0 then ⟨0, 0, 0, 0, 0, 0, 0, 0, 0⟩
  else
    let detInv := 1 / det
    ⟨t11 * detInv,
     (n31 * n23 - n33 * n21) * detInv,
     (n32 * n21 - n31 * n22) * detInv,
     t12 * detInv,
     (n33 * n11 - n31 * n13) * detInv,
     (n31 * n12 - n32 * n11) * detInv,
     t13 * detInv,
     (n21 * n13 - n23 * n11) * detInv,
     (n22 * n11 - n21 * n12) * detInv⟩

/-- three.js `Matrix3.transpose`. -/
def m3transpose (m : Mat3) : Mat3 :=
  ⟨m.e0, m.e3, m.e6, m.e1, m.e4, m.e7, m.e2, m.e5, m.e8⟩

/-- three.js `Matrix3.getNormalMatrix`: transposed inverse of the upper-left
3×3 block of a `Matrix4`. -/
noncomputable def getNormalMatrix (m : Mat4) : Mat3 :=
  m3transpose (m3invert (m3FromMat4 m))

/-! ## Sky / environment backdrop (applySceneExterior) -/

/-- three.js `Quaternion` (x, y, z, w). -/
structure Quaternion4 where
  x : ℝ
  y : ℝ
  z : ℝ
  w : ℝ

/-- three.js `Quaternion.setFromAxisAngle` for a unit axis. -/
noncomputable def quatFromAxisAngle (ax ay az angle : ℝ) : Quaternion4 :=
  let halfAngle := angle / 2
  let s := Real.sin halfAngle
  ⟨ax * s, ay * s, az * s, Real.cos halfAngle⟩

/-- three.js `Quaternion.multiply` (Hamilton product, this * q). -/
def quatMultiply (a b : Quaternion4) : Quaternion4 :=
  ⟨a.x * b.w + a.w * b.x + a.y * b.z - a.z * b.y,
   a.y * b.w + a.w * b.y + a.z * b.x - a.x * b.z,
   a.z * b.w + a.w * b.z + a.x * b.y - a.y * b.x,
   a.w * b.w - a.x * b.x - a.y * b.y - a.z * b.z⟩

/-- three.js `MathUtils.degToRad`. -/
noncomputable def degToRad (degrees : ℝ) : ℝ := degrees * Real.pi / 180

/-- One entry of the manifest `skies[]` list. -/
structure SkyEntry where
  texture : Option TexRef
  yawRotation : JSNum

/-- The sky sphere mesh state relevant to the claims: its texture map and the
orientation quaternion assigned at main.js line 1058. -/
structure SkyMeshState (τ : Type) where
  textureMap : τ
  quaternion : Quaternion4

/-- The cloned environment-reflection texture (main.js lines 1060-1067).
`textureRotation` is the texture object's own 2D `rotation` field, which
`applySceneExterior` never writes (it stays at the three.js default 0). -/
structure EnvironmentMapState (τ : Type) where
  sourceTexture : τ
  textureRotation : ℝ

/-- Scene-level exterior state written by `applySceneExterior`.
`environmentRotation` / `backgroundRotation` are `some` Euler angle triples
when the running three.js revision exposes the corresponding scene property
(the code feature-detects them), `none` when the property is absent and the
write is skipped. -/
structure SceneExteriorState (τ : Type) where
  exteriorMode : String
  skyMesh : Option (SkyMeshState τ)
  environmentMap : Option (EnvironmentMapState τ)
  environmentRotation : Option (ℝ × ℝ × ℝ)
  backgroundRotation : Option (ℝ × ℝ × ℝ)

/-- Exterior state after `clearSceneExterior` and an early `return false`
(no usable sky, or the sky texture failed to resolve): no sky mesh, no
environment map, the rotation properties untouched. -/
def clearedExteriorState (τ : Type) : SceneExteriorState τ :=
  { exteriorMode := "none"
    skyMesh := none
    environmentMap := none
    environmentRotation := none
    backgroundRotation := none }

/-- main.js `applySceneExterior` (lines 1000-1090), restricted to its
rotation and texture data flow.  `resolveTexture` is the asynchronous
`resolveMaterialTexture` oracle; `supportsEnvironmentRotation` /
`supportsBackgroundRotation` model the `if (scene.environmentRotation)` /
`if (scene.backgroundRotation)` feature guards. -/
noncomputable def applySceneExterior {τ : Type}
    (resolveTexture : TexRef → Option τ) (skies : List SkyEntry)
    (supportsEnvironmentRotation supportsBackgroundRotation : Bool) :
    SceneExteriorState τ :=
  match skies.head? with
  | none => clearedExteriorState τ
  | some firstSky =>
    match firstSky.texture with
    | none => clearedExteriorState τ
    | some textureRef =>
      if textureRef.id = "" then clearedExteriorState τ
      else
        match resolveTexture textureRef with
        | none => clearedExteriorState τ
        | some skyTexture =>
          let yawRadians : ℝ :=
            match firstSky.yawRotation with
            | some yawDegrees => degToRad (yawDegrees : ℚ)
            | none => 0
          -- Rotate the sky dome into Z-up, then apply authored yaw around Z
          -- (main.js lines 1048-1058).
          let zUpSkyQuat := quatFromAxisAngle 1 0 0 (Real.pi / 2)
          let skyYawQuat := quatFromAxisAngle 0 0 1 yawRadians
          { exteriorMode := "sky"
            skyMesh :=
              some { textureMap := skyTexture
                     quaternion := quatMultiply skyYawQuat zUpSkyQuat }
            environmentMap :=
              some { sourceTexture := skyTexture, textureRotation := 0 }
            -- lines 1070-1072 and the non-finite reset at 1081-1085: both
            -- writes store (0, 0, yawRadians) since yawRadians is 0 when the
            -- authored yaw was not a finite number
            environmentRotation :=
              if supportsEnvironmentRotation then some (0, 0, yawRadians)
              else none
            backgroundRotation :=
              if supportsBackgroundRotation then some (0, 0, 0) else none }

/-! ## Scene mesh objects and countertop normal harmonization -/

/-- The geometry attribute state of one scene mesh. -/
structure MeshGeometryData where
  position : List Vec3
  normal : Option (List Vec3)
  uv : Option (List (ℝ × ℝ))
  index : Option (List ℤ)

/-- The material reference slot of a mesh (JS object references modelled as
tags into the engine's material maps). -/
inductive MaterialSlot where
  | sceneMaterial (materialIdx : ℤ)
  | missingMaterialFallback
  | overrideMaterial (materialIdx : ℤ)
deriving DecidableEq

/-- One decoded scene mesh as the retexture engine sees it.
`userDataMaterialIdx` is `Number(mesh.userData.materialIdx)` when that is an
integer. -/
structure SceneMeshObject where
  geometry : MeshGeometryData
  matrixWorld : Mat4
  material : MaterialSlot
  userDataMaterialIdx : Option ℤ

instance : Inhabited SceneMeshObject :=
  ⟨{ geometry := { position := [], normal := none, uv := none, index := none }
     matrixWorld := mat4Identity
     material := MaterialSlot.missingMaterialFallback
     userDataMaterialIdx := none }⟩

/-- three.js `BufferGeometry.computeVertexNormals` (library semantics):
per-triangle face normals `(pC - pB) × (pA - pB)` accumulated per vertex for
indexed geometry (assigned per corner for non-indexed geometry), then
normalized. -/
noncomputable def computeVertexNormals (geometry : MeshGeometryData) :
    List Vec3 :=
  let count := geometry.position.length
  let posAt : ℕ → Vec3 := fun i => geometry.position.getD i ⟨0, 0, 0⟩
  let summed :=
    match geometry.index with
    | some indexList =>
      let triangleCount := indexList.length / 3
      (List.range triangleCount).foldl
        (fun (normals : List Vec3) tri =>
          let vA := (indexList.getD (tri * 3) 0).toNat
          let vB := (indexList.getD (tri * 3 + 1) 0).toNat
          let vC := (indexList.getD (tri * 3 + 2) 0).toNat
          let faceNormal :=
            vcross (vsub (posAt vC) (posAt vB)) (vsub (posAt vA) (posAt vB))
          let normals := normals.set vA (vadd (normals.getD vA ⟨0, 0, 0⟩) faceNormal)
          let normals := normals.set vB (vadd (normals.getD vB ⟨0, 0, 0⟩) faceNormal)
          normals.set vC (vadd (normals.getD vC ⟨0, 0, 0⟩) faceNormal))
        (List.replicate count (⟨0, 0, 0⟩ : Vec3))
    | none =>
      (List.range (count / 3)).foldl
        (fun (normals : List Vec3) tri =>
          let faceNormal :=
            vcross (vsub (posAt (tri * 3 + 2)) (posAt (tri * 3 + 1)))
              (vsub (posAt (tri * 3)) (posAt (tri * 3 + 1)))
          ((normals.set (tri * 3) faceNormal).set (tri * 3 + 1)
              faceNormal).set (tri * 3 + 2) faceNormal)
        (List.replicate count (⟨0, 0, 0⟩ : Vec3))
  summed.map vnormalize

/-- The normal attribute `harmonizeCountertopNormals` works on: the stored
attribute, or the one `computeVertexNormals` materializes when it is missing
(main.js lines 1551-1555). -/
noncomputable def effectiveNormals (geometry : MeshGeometryData) : List Vec3 :=
  match geometry.normal with
  | some normals => normals
  | none => computeVertexNormals geometry

/-- World-space position of vertex `i` (main.js lines 1564-1567). -/
noncomputable def meshWorldPositionAt (mesh : SceneMeshObject) (i : ℕ) : Vec3 :=
  applyMatrix4 mesh.matrixWorld (mesh.geometry.position.getD i ⟨0, 0, 0⟩)

/-- Maximum of a list of reals (`none` on the empty list, matching the
non-finite `-Infinity` fold seed guarded by `Number.isFinite`). -/
def listMaxOf (l : List ℝ) : Option ℝ :=
  match l with
  | [] => none
  | a :: rest => some (rest.foldl max a)

/-- Minimum of a list of reals (`none` on the empty list). -/
def listMinOf (l : List ℝ) : Option ℝ :=
  match l with
  | [] => none
  | a :: rest => some (rest.foldl min a)

/-- Highest world `z` over the mesh vertices (main.js lines 1562-1574). -/
noncomputable def meshTopZ (mesh : SceneMeshObject) : Option ℝ :=
  listMaxOf ((List.range mesh.geometry.position.length).map fun i =>
    (meshWorldPositionAt mesh i).z)

/-- Lowest world `z` over the mesh vertices. -/
noncomputable def meshBottomZ (mesh : SceneMeshObject) : Option ℝ :=
  listMinOf ((List.range mesh.geometry.position.length).map fun i =>
    (meshWorldPositionAt mesh i).z)

/-- Mesh world height (main.js lines 1575-1577). -/
noncomputable def meshHeightOf (mesh : SceneMeshObject) : ℝ :=
  match meshTopZ mesh, meshBottomZ mesh with
  | some topZ, some bottomZ => max 0 (topZ - bottomZ)
  | _, _ => 0

/-- Per-mesh top-plane tolerance (main.js line 1578). -/
noncomputable def topPlaneToleranceOf (safeTolerance : ℝ)
    (mesh : SceneMeshObject) : ℝ :=
  max (safeTolerance * (35 / 100)) (meshHeightOf mesh * (1 / 100))

/-- Top band height used by the top bucket key (main.js line 1579). -/
noncomputable def topBandHeightOf (safeTolerance : ℝ) : ℝ :=
  max (safeTolerance * 10) (8 / 100)

/-- Normal matrix of a mesh (main.js line 1560). -/
noncomputable def meshNormalMatrix (mesh : SceneMeshObject) : Mat3 :=
  getNormalMatrix mesh.matrixWorld

/-- Inverse normal matrix of a mesh (main.js line 1561). -/
noncomputable def meshInverseNormalMatrix (mesh : SceneMeshObject) : Mat3 :=
  m3invert (meshNormalMatrix mesh)

/-- Triangle count of the top-face scan (main.js lines 1584-1587). -/
def meshTriangleCount (mesh : SceneMeshObject) : ℕ :=
  match mesh.geometry.index with
  | some indexList => indexList.length / 3
  | none => mesh.geometry.position.length / 3

/-- Vertex indices of triangle `tri` (main.js lines 1590-1592). -/
def meshTriangleVertexIndices (mesh : SceneMeshObject) (tri : ℕ) :
    ℤ × ℤ × ℤ :=
  match mesh.geometry.index with
  | some indexList =>
    (indexList.getD (tri * 3) 0, indexList.getD (tri * 3 + 1) 0,
      indexList.getD (tri * 3 + 2) 0)
  | none => (((tri * 3 : ℕ) : ℤ), ((tri * 3 + 1 : ℕ) : ℤ), ((tri * 3 + 2 : ℕ) : ℤ))

/-- The `topVertexMask` bit of vertex `i` (main.js lines 1581-1633): marked
when some in-range triangle containing the vertex has a predominantly
vertical world face normal. -/
noncomputable def meshTopFaceMask (safeUpThreshold : ℝ)
    (mesh : SceneMeshObject) (i : ℕ) : Bool :=
  (List.range (meshTriangleCount mesh)).any fun tri =>
    let indices := meshTriangleVertexIndices mesh tri
    let ia := indices.1
    let ib := indices.2.1
    let ic := indices.2.2
    let count := (mesh.geometry.position.length : ℤ)
    if ia < 0 ∨ ib < 0 ∨ ic < 0 ∨ count ≤ ia ∨ count ≤ ib ∨ count ≤ ic then
      false
    else
      let facePosA := meshWorldPositionAt mesh ia.toNat
      let facePosB := meshWorldPositionAt mesh ib.toNat
      let facePosC := meshWorldPositionAt mesh ic.toNat
      let faceWorldNormal :=
        vcross (vsub facePosB facePosA) (vsub facePosC facePosA)
      if vlengthSq faceWorldNormal < 1 / 10 ^ 12 then false
      else
        let upAlignment := vdot (vnormalize faceWorldNormal) worldUp
        if |upAlignment| < safeUpThreshold then false
        else decide (ia = (i : ℤ) ∨ ib = (i : ℤ) ∨ ic = (i : ℤ))

/-- Normalized world-space vertex normal (main.js lines 1635-1639). -/
noncomputable def vertexWorldNormal (mesh : SceneMeshObject) (i : ℕ) : Vec3 :=
  vnormalize (applyMatrix3 (meshNormalMatrix mesh)
    ((effectiveNormals mesh.geometry).getD i ⟨0, 0, 0⟩))

/-- `normalUpAlignment` (main.js line 1640). -/
noncomputable def vertexUpAlignment (mesh : SceneMeshObject) (i : ℕ) : ℝ :=
  vdot (vertexWorldNormal mesh i) worldUp

/-- `qualifiesByNormal` (main.js lines 1641-1643). -/
noncomputable def vertexQualifiesByNormal (safeUpThreshold : ℝ)
    (mesh : SceneMeshObject) (i : ℕ) : Bool :=
  decide (safeUpThreshold ≤ |vertexUpAlignment mesh i|)

/-- `qualifiesByHeight` (main.js lines 1648-1651). -/
noncomputable def vertexQualifiesByHeight (safeTolerance : ℝ)
    (mesh : SceneMeshObject) (i : ℕ) : Bool :=
  match meshTopZ mesh with
  | some topZ =>
    decide (topZ - (meshWorldPositionAt mesh i).z ≤
      topPlaneToleranceOf safeTolerance mesh)
  | none => false

/-- `qualifiesByTopFace` (main.js lines 1652-1654). -/
noncomputable def vertexQualifiesByTopFace
    (safeTolerance safeUpThreshold : ℝ) (flattenTopFaces : Bool)
    (mesh : SceneMeshObject) (i : ℕ) : Bool :=
  (flattenTopFaces && meshTopFaceMask safeUpThreshold mesh i) ||
    (vertexQualifiesByHeight safeTolerance mesh i &&
      vertexQualifiesByNormal safeUpThreshold mesh i)

/-- A vertex participates in harmonization (main.js line 1655). -/
noncomputable def vertexQualifies (safeTolerance safeUpThreshold : ℝ)
    (flattenTopFaces : Bool) (mesh : SceneMeshObject) (i : ℕ) : Bool :=
  vertexQualifiesByNormal safeUpThreshold mesh i ||
    vertexQualifiesByTopFace safeTolerance safeUpThreshold flattenTopFaces
      mesh i

/-- Bucket keys of the harmonization map (main.js lines 1659-1663): the two
template-string formats `kx|ky|kz` and `kx|ky|top|band` are injective, so the
keys are modelled as a two-constructor sum. -/
inductive BucketKey where
  | reg (keyX keyY keyZ : ℤ)
  | top (keyX keyY band : ℤ)
deriving DecidableEq

/-- Bucket key of a qualified vertex (main.js lines 1659-1663). -/
noncomputable def vertexBucketKey (safeTolerance safeUpThreshold : ℝ)
    (flattenTopFaces : Bool) (mesh : SceneMeshObject) (i : ℕ) : BucketKey :=
  let worldPosition := meshWorldPositionAt mesh i
  let keyX := round (worldPosition.x / safeTolerance)
  let keyY := round (worldPosition.y / safeTolerance)
  if vertexQualifiesByTopFace safeTolerance safeUpThreshold flattenTopFaces
      mesh i then
    BucketKey.top keyX keyY
      (round (worldPosition.z / topBandHeightOf safeTolerance))
  else
    BucketKey.reg keyX keyY (round (worldPosition.z / safeTolerance))

/-- `sampledWorldNormal` contributed by a qualified vertex (main.js lines
1671-1675): the world up axis for top-face vertices, otherwise the world
normal flipped towards positive up alignment. -/
noncomputable def vertexSampledNormal (safeTolerance safeUpThreshold : ℝ)
    (flattenTopFaces : Bool) (mesh : SceneMeshObject) (i : ℕ) : Vec3 :=
  if vertexQualifiesByTopFace safeTolerance safeUpThreshold flattenTopFaces
      mesh i then
    worldUp
  else if 0 ≤ vertexUpAlignment mesh i then vertexWorldNormal mesh i
  else vsmul (-1) (vertexWorldNormal mesh i)

/-- All qualified `(mesh index, vertex index)` references, in the traversal
order of the collection loop (main.js lines 1538-1693). -/
noncomputable def harmonizeRefs (safeTolerance safeUpThreshold : ℝ)
    (flattenTopFaces : Bool) (meshes : List SceneMeshObject) :
    List (ℕ × ℕ) :=
  (List.range meshes.length).flatMap fun mi =>
    let mesh := meshes.getD mi default
    (List.range mesh.geometry.position.length).filterMap fun i =>
      if vertexQualifies safeTolerance safeUpThreshold flattenTopFaces mesh
          i then
        some (mi, i)
      else none

/-- World-space normal sum accumulated by the bucket with key `key`
(main.js lines 1665-1678). -/
noncomputable def bucketSumFor (safeTolerance safeUpThreshold : ℝ)
    (flattenTopFaces : Bool) (meshes : List SceneMeshObject)
    (key : BucketKey) : Vec3 :=
  vsum ((harmonizeRefs safeTolerance safeUpThreshold flattenTopFaces
      meshes).filterMap fun r =>
    let mesh := meshes.getD r.1 default
    if vertexBucketKey safeTolerance safeUpThreshold flattenTopFaces mesh
        r.2 = key then
      some (vertexSampledNormal safeTolerance safeUpThreshold flattenTopFaces
        mesh r.2)
    else none)

/-- Final normal of vertex `(mi, i)` after one harmonization run.

The imperative loops of main.js lines 1695-1727 write each vertex reference
at most twice: once by the bucket holding it (every vertex is appended to
exactly one bucket, the one keyed by `vertexBucketKey`, and buckets write to
disjoint reference sets so their iteration order is immaterial), and then,
when `flattenTopFaces` is set, once more by the `topFaceRefs` pass, which
overwrites exactly the qualified top-face vertices with the localized world
up axis.  The per-vertex result is therefore: unqualified vertices keep the
stored normal; a qualified vertex receives the localized normalized bucket
average unless the bucket sum is shorter than `1e-5` (the `lengthSq < 1e-10`
skip leaves the stored normal); the flatten pass then overrides qualified
top-face vertices. -/
noncomputable def harmonizedNormalAt (safeTolerance safeUpThreshold : ℝ)
    (flattenTopFaces : Bool) (meshes : List SceneMeshObject) (mi i : ℕ) :
    Vec3 :=
  let mesh := meshes.getD mi default
  let base := (effectiveNormals mesh.geometry).getD i ⟨0, 0, 0⟩
  if vertexQualifies safeTolerance safeUpThreshold flattenTopFaces mesh i then
    let bucketResult :=
      let s := bucketSumFor safeTolerance safeUpThreshold flattenTopFaces
        meshes
        (vertexBucketKey safeTolerance safeUpThreshold flattenTopFaces mesh i)
      if vlengthSq s < 1 / 10 ^ 10 then base
      else vnormalize (applyMatrix3 (meshInverseNormalMatrix mesh)
        (vnormalize s))
    if flattenTopFaces &&
        vertexQualifiesByTopFace safeTolerance safeUpThreshold
          flattenTopFaces mesh i then
      vnormalize (applyMatrix3 (meshInverseNormalMatrix mesh) worldUp)
    else bucketResult
  else base

/-- main.js `harmonizeCountertopNormals` (lines 1504-1728): rewrite every
mesh's normal attribute with the per-vertex harmonization result.  Positions,
UVs, indices, world matrices and material assignments are untouched. -/
noncomputable def harmonizeCountertopNormals (meshes : List SceneMeshObject)
    (positionTolerance upNormalThreshold : ℝ) (flattenTopFaces : Bool) :
    List SceneMeshObject :=
  if meshes.isEmpty then meshes
  else
    let safeTolerance :=
      if 0 < positionTolerance then positionTolerance else 2 / 1000
    let safeUpThreshold := upNormalThreshold
    (List.range meshes.length).map fun mi =>
      let mesh := meshes.getD mi default
      { mesh with
          geometry :=
            { mesh.geometry with
                normal :=
                  some ((List.range mesh.geometry.position.length).map fun i =>
                    harmonizedNormalAt safeTolerance safeUpThreshold
                      flattenTopFaces meshes mi i) } }

/-! ## World-space UV projection and the apply-texture entry point -/

/-- main.js `projectCountertopUvsWorld` (lines 1444-1502): planar projection
of world positions onto the axis pair orthogonal to the dominant world-normal
axis, scaled by `uvScale`. -/
noncomputable def projectCountertopUvsWorld (meshes : List SceneMeshObject)
    (uvScale : ℝ) : List SceneMeshObject :=
  let safeScale := if 0 < uvScale then uvScale else 22 / 100
  meshes.map fun mesh =>
    let normalMatrix := getNormalMatrix mesh.matrixWorld
    let uvs :=
      (List.range mesh.geometry.position.length).map fun i =>
        let worldPosition := meshWorldPositionAt mesh i
        match mesh.geometry.normal with
        | none => (worldPosition.x * safeScale, worldPosition.y * safeScale)
        | some normals =>
          let worldNormal :=
            vnormalize (applyMatrix3 normalMatrix (normals.getD i ⟨0, 0, 0⟩))
          let nx := |worldNormal.x|
          let ny := |worldNormal.y|
          let nz := |worldNormal.z|
          if nx ≤ ny ∧ nz ≤ ny then
            (worldPosition.x * safeScale, worldPosition.z * safeScale)
          else if ny ≤ nx ∧ nz ≤ nx then
            (worldPosition.y * safeScale, worldPosition.z * safeScale)
          else (worldPosition.x * safeScale, worldPosition.y * safeScale)
    { mesh with geometry := { mesh.geometry with uv := some uvs } }

/-- A countertop override material (main.js lines 1730-1760): an unlit,
non-transparent textured material; only the texture binding and sidedness
vary, everything else is fixed by `normalizeCountertopMaterial`. -/
structure CountertopOverrideMaterial (τ : Type) where
  map : τ
  side : MaterialSide

/-- The viewer runtime state touched by `applyCountertopTexture`.
`countertopMeshes` holds indices into `meshes`, modelling the JS object
references stored in `runtime.countertopMeshes`. -/
structure ViewerState (τ : Type) where
  meshes : List SceneMeshObject
  countertopMeshes : List ℕ
  countertopMaterialIndexes : List ℤ
  countertopOverrideMaterials : List (ℤ × CountertopOverrideMaterial τ)
  materialByIndex : List (ℤ × StandardMaterial τ)
  countertopNormalsHarmonized : Bool

/-- Status messages reported by `applyCountertopTexture`. -/
inductive ApplyStatus where
  | selectPrompt
  | noTargets
  | loadFailed (textureId : String)
  | applied (textureId : String)
deriving DecidableEq

/-- main.js `getCountertopOverrideMaterial` (lines 1741-1760): reuse and
re-bind a cached override material, or build one with the source material's
sidedness.  Returns the override together with the updated cache. -/
def getCountertopOverrideMaterial {τ : Type} (state : ViewerState τ)
    (materialIndex : ℤ) (texture : τ) :
    CountertopOverrideMaterial τ × List (ℤ × CountertopOverrideMaterial τ) :=
  match state.countertopOverrideMaterials.lookup materialIndex with
  | some existing =>
    let updated := { existing with map := texture }
    (updated,
      state.countertopOverrideMaterials.map fun entry =>
        if entry.1 = materialIndex then (materialIndex, updated) else entry)
  | none =>
    let side :=
      ((state.materialByIndex.lookup materialIndex).map
        (fun m => m.side)).getD MaterialSide.front
    let override : CountertopOverrideMaterial τ := { map := texture, side := side }
    (override, state.countertopOverrideMaterials ++ [(materialIndex, override)])

/-- The countertop meshes as the list of referenced mesh objects. -/
def selectCountertopMeshes {τ : Type} (state : ViewerState τ) :
    List SceneMeshObject :=
  state.countertopMeshes.map fun meshIdx => state.meshes.getD meshIdx default

/-- Write mutated countertop mesh objects back through their references. -/
def writeBackCountertopMeshes (meshes : List SceneMeshObject)
    (meshIdxs : List ℕ) (updated : List SceneMeshObject) :
    List SceneMeshObject :=
  (meshIdxs.zip updated).foldl (fun acc entry => acc.set entry.1 entry.2) meshes

/-- main.js `applyCountertopTexture` (lines 1762-1807).  The texture load
(`loadCountertopTexture`, including its cache and background-removal
processing) is modelled by the oracle `loadCountertopTex`; status messages
become `ApplyStatus` values.  An empty normalized id or an empty countertop
mesh list returns before any state is touched; a failed texture load returns
after only the cache-free load attempt.  Otherwise normals are lazily
harmonized once per scene with the call-site parameters (0.012, 0.5, true),
UVs are reprojected at scale 0.23, and override materials are swapped in per
distinct countertop material index. -/
noncomputable def applyCountertopTexture {τ : Type}
    (loadCountertopTex : String → Option τ) (state : ViewerState τ)
    (textureId : String) : ViewerState τ × ApplyStatus :=
  let normalized := jsTrim textureId
  if normalized = "" then (state, ApplyStatus.selectPrompt)
  else if state.countertopMeshes.isEmpty then (state, ApplyStatus.noTargets)
  else
    match loadCountertopTex normalized with
    | none => (state, ApplyStatus.loadFailed normalized)
    | some texture =>
      let state :=
        if state.countertopNormalsHarmonized then state
        else
          { state with
              meshes :=
                writeBackCountertopMeshes state.meshes state.countertopMeshes
                  (harmonizeCountertopNormals (selectCountertopMeshes state)
                    (12 / 1000) (1 / 2) true)
              countertopNormalsHarmonized := true }
      let state :=
        { state with
            meshes :=
              writeBackCountertopMeshes state.meshes state.countertopMeshes
                (projectCountertopUvsWorld (selectCountertopMeshes state)
                  (23 / 100)) }
      let final :=
        state.countertopMeshes.foldl
          (fun (acc : ViewerState τ × List ℤ) meshIdx =>
            let st := acc.1
            let usedMaterialIndexes := acc.2
            let mesh := st.meshes.getD meshIdx default
            match mesh.userDataMaterialIdx with
            | none => (st, usedMaterialIndexes)
            | some materialIndex =>
              let usedMaterialIndexes :=
                if materialIndex ∈ usedMaterialIndexes then
                  usedMaterialIndexes
                else usedMaterialIndexes ++ [materialIndex]
              let result := getCountertopOverrideMaterial st materialIndex
                texture
              ({ st with
                  meshes :=
                    st.meshes.set meshIdx
                      { mesh with
                          material := MaterialSlot.overrideMaterial
                            materialIndex }
                  countertopOverrideMaterials := result.2 },
                usedMaterialIndexes))
          (state, [])
      ({ final.1 with countertopMaterialIndexes := final.2 },
        ApplyStatus.applied normalized)

/-! ## Countertop texture background removal (cropAndFillCountertopTextureImage) -/

/-- Decoded RGBA pixel data of an image drawn onto a canvas: `data` is the
flattened byte array of length `4 * width * height`. -/
structure RgbaImage where
  width : ℕ
  height : ℕ
  data : List ℕ
deriving DecidableEq

/-- JS `Math.round` for nonnegative-denominator rationals: floor of `q + 1/2`
(halves round towards positive infinity, as in JS). -/
def jsRound (q : ℚ) : ℤ := ⌊q + 1 / 2⌋

/-- main.js `medianValue` (lines 172-178): middle element of the ascending
sort (upper middle for even lengths). -/
def medianValue (values : List ℚ) : ℚ :=
  if values.isEmpty then 0
  else (values.mergeSort (fun a b => decide (a ≤ b))).getD (values.length / 2) 0

/-- The index list of a JS loop `for (i = start; i < stop; i += step)`. -/
def stepRange (start stop step : ℕ) : List ℕ :=
  (List.range ((stop - start + step - 1) / step)).map fun k => start + k * step

/-- Corner patch size of the backdrop estimator (main.js line 181). -/
def cornerWindowSize (image : RgbaImage) : ℕ :=
  max 8 (min image.width image.height * 6 / 100)

/-- Sampling step inside a corner patch (main.js line 182). -/
def cornerStep (image : RgbaImage) : ℕ := max 1 (cornerWindowSize image / 10)

/-- The four corner patch offsets (main.js lines 183-188). -/
def cornerOffsets (image : RgbaImage) : List (ℕ × ℕ) :=
  let size := cornerWindowSize image
  [(0, 0), (image.width - size, 0), (0, image.height - size),
    (image.width - size, image.height - size)]

/-- One sampled channel over the four corner patches, in the scan order of
main.js lines 194-205. -/
def cornerSampleChannel (image : RgbaImage) (channel : ℕ) : List ℚ :=
  let size := cornerWindowSize image
  let step := cornerStep image
  (cornerOffsets image).flatMap fun off =>
    let endX := min image.width (off.1 + size)
    let endY := min image.height (off.2 + size)
    (stepRange off.2 endY step).flatMap fun y =>
      (stepRange off.1 endX step).map fun x =>
        ((image.data.getD ((y * image.width + x) * 4 + channel) 0 : ℕ) : ℚ)

/-- Estimated backdrop color and removal threshold. -/
structure BackdropEstimate where
  red : ℚ
  green : ℚ
  blue : ℚ
  threshold : ℝ

/-- main.js `estimateBackdropFromCorners` (lines 180-224): per-channel corner
medians, then a threshold at the 85th percentile of the corner Euclidean
distances plus a fixed margin, clamped to [20, 84]. -/
noncomputable def estimateBackdropFromCorners (image : RgbaImage) :
    BackdropEstimate :=
  let reds := cornerSampleChannel image 0
  let greens := cornerSampleChannel image 1
  let blues := cornerSampleChannel image 2
  let red := medianValue reds
  let green := medianValue greens
  let blue := medianValue blues
  let distances : List ℝ :=
    (List.range reds.length).map fun i =>
      let dr := reds.getD i 0 - red
      let dg := greens.getD i 0 - green
      let db := blues.getD i 0 - blue
      Real.sqrt (((dr * dr + dg * dg + db * db : ℚ) : ℝ))
  let sorted := distances.mergeSort (fun a b => decide (a ≤ b))
  let p85Index := min (distances.length - 1) (distances.length * 85 / 100)
  let p85 := sorted.getD p85Index 0
  { red := red, green := green, blue := blue
    threshold := max 20 (min 84 (p85 + 18)) }

/-- Mutable state of the border flood fill (main.js lines 255-259). -/
structure FloodFillState where
  backgroundMask : List Bool
  visited : List Bool
  queue : List ℕ

/-- main.js `enqueueIfBackground` (lines 261-286): an unvisited pixel is
marked background and enqueued when it is nearly transparent or within the
color-distance threshold of the backdrop estimate. -/
noncomputable def enqueueIfBackground (image : RgbaImage)
    (backdrop : BackdropEstimate) (thresholdSquared : ℝ)
    (st : FloodFillState) (x y : ℕ) : FloodFillState :=
  let index := y * image.width + x
  if st.visited.getD index false then st
  else
    let visited := st.visited.set index true
    let offset := index * 4
    let alpha := image.data.getD (offset + 3) 0
    if alpha < 8 then
      { backgroundMask := st.backgroundMask.set index true
        visited := visited
        queue := st.queue ++ [index] }
    else
      let dr : ℚ := (image.data.getD offset 0 : ℕ) - backdrop.red
      let dg : ℚ := (image.data.getD (offset + 1) 0 : ℕ) - backdrop.green
      let db : ℚ := (image.data.getD (offset + 2) 0 : ℕ) - backdrop.blue
      let distanceSquared : ℚ := dr * dr + dg * dg + db * db
      if ((distanceSquared : ℚ) : ℝ) ≤ thresholdSquared then
        { backgroundMask := st.backgroundMask.set index true
          visited := visited
          queue := st.queue ++ [index] }
      else { st with visited := visited }

/-- Border seeding of the flood fill (main.js lines 288-295). -/
noncomputable def seedBorderPixels (image : RgbaImage)
    (backdrop : BackdropEstimate) (thresholdSquared : ℝ) : FloodFillState :=
  let total := image.width * image.height
  let st0 : FloodFillState :=
    { backgroundMask := List.replicate total false
      visited := List.replicate total false
      queue := [] }
  let st1 :=
    (List.range image.width).foldl
      (fun st x =>
        enqueueIfBackground image backdrop thresholdSquared
          (enqueueIfBackground image backdrop thresholdSquared st x 0) x
          (image.height - 1))
      st0
  (List.range image.height).foldl
    (fun st y =>
      enqueueIfBackground image backdrop thresholdSquared
        (enqueueIfBackground image backdrop thresholdSquared st 0 y)
        (image.width - 1) y)
    st1

/-- The 4-connected flood-fill work loop (main.js lines 297-315), written
with explicit fuel.  Every enqueue flips one `visited` flag from false to
true, so at most `width * height` indices are ever enqueued and that much
fuel always drains the queue. -/
noncomputable def floodLoop (image : RgbaImage)
    (backdrop : BackdropEstimate) (thresholdSquared : ℝ) :
    ℕ → FloodFillState → FloodFillState
  | 0, st => st
  | fuel + 1, st =>
    match st.queue with
    | [] => st
    | index :: rest =>
      let x := index % image.width
      let y := index / image.width
      let st1 : FloodFillState := { st with queue := rest }
      let st2 :=
        if 0 < x then
          enqueueIfBackground image backdrop thresholdSquared st1 (x - 1) y
        else st1
      let st3 :=
        if x < image.width - 1 then
          enqueueIfBackground image backdrop thresholdSquared st2 (x + 1) y
        else st2
      let st4 :=
        if 0 < y then
          enqueueIfBackground image backdrop thresholdSquared st3 x (y - 1)
        else st3
      let st5 :=
        if y < image.height - 1 then
          enqueueIfBackground image backdrop thresholdSquared st4 x (y + 1)
        else st4
      floodLoop image backdrop thresholdSquared fuel st5

/-- The background mask produced by the flood-fill stage of
`cropAndFillCountertopTextureImage` (main.js lines 253-315). -/
noncomputable def backgroundMaskOf (image : RgbaImage) : List Bool :=
  let backdrop := estimateBackdropFromCorners image
  let thresholdSquared := backdrop.threshold * backdrop.threshold
  (floodLoop image backdrop thresholdSquared (image.width * image.height)
    (seedBorderPixels image backdrop thresholdSquared)).backgroundMask

/-- Indices of foreground pixels (pixels the fill never marked, main.js
lines 323-342). -/
noncomputable def foregroundOf (image : RgbaImage) : List ℕ :=
  (List.range (image.width * image.height)).filter fun index =>
    !(backgroundMaskOf image).getD index false

/-- `foregroundCount` of main.js line 321. -/
noncomputable def foregroundCountOf (image : RgbaImage) : ℕ :=
  (foregroundOf image).length

/-- `foregroundRatio` of main.js line 348. -/
noncomputable def foregroundFracOf (image : RgbaImage) : ℚ :=
  (foregroundCountOf image : ℚ) / ((image.width * image.height : ℕ) : ℚ)

/-- Crop padding (main.js line 353). -/
def cropPaddingOf (image : RgbaImage) : ℕ :=
  max 2 (min image.width image.height / 100)

/-- Padded crop left edge (main.js lines 330, 354): natural subtraction
models `Math.max(0, minX - padding)`. -/
noncomputable def cropMinXOf (image : RgbaImage) : ℕ :=
  ((foregroundOf image).map (fun i => i % image.width)).foldl min
      image.width -
    cropPaddingOf image

/-- Padded crop top edge (main.js lines 336, 355). -/
noncomputable def cropMinYOf (image : RgbaImage) : ℕ :=
  ((foregroundOf image).map (fun i => i / image.width)).foldl min
      image.height -
    cropPaddingOf image

/-- Padded crop right edge (main.js lines 333, 356). -/
noncomputable def cropMaxXOf (image : RgbaImage) : ℤ :=
  min ((image.width : ℤ) - 1)
    (((foregroundOf image).map fun i => ((i % image.width : ℕ) : ℤ)).foldl
        max (-1) +
      (cropPaddingOf image : ℤ))

/-- Padded crop bottom edge (main.js lines 339, 357). -/
noncomputable def cropMaxYOf (image : RgbaImage) : ℤ :=
  min ((image.height : ℤ) - 1)
    (((foregroundOf image).map fun i => ((i / image.width : ℕ) : ℤ)).foldl
        max (-1) +
      (cropPaddingOf image : ℤ))

/-- `cropWidth` (main.js line 359). -/
noncomputable def cropWidthOf (image : RgbaImage) : ℤ :=
  cropMaxXOf image - (cropMinXOf image : ℤ) + 1

/-- `cropHeight` (main.js line 360). -/
noncomputable def cropHeightOf (image : RgbaImage) : ℤ :=
  cropMaxYOf image - (cropMinYOf image : ℤ) + 1

/-- `copyColor` (main.js lines 421-429): copy one RGB triple, force alpha
opaque.  The mask clearing is handled by the caller. -/
def copyPixelChannels (data : List ℕ) (fromIndex toIndex : ℕ) : List ℕ :=
  let fromOffset := fromIndex * 4
  let toOffset := toIndex * 4
  (((data.set toOffset (data.getD fromOffset 0)).set (toOffset + 1)
        (data.getD (fromOffset + 1) 0)).set (toOffset + 2)
      (data.getD (fromOffset + 2) 0)).set (toOffset + 3) 255

/-- One directional in-paint scan (main.js lines 431-471, one direction):
walk the index list carrying the last solid pixel, copying it into background
pixels, which then count as solid for later passes. -/
def inpaintPass (idxs : List ℕ) (dataMask : List ℕ × List Bool) :
    List ℕ × List Bool :=
  let final :=
    idxs.foldl
      (fun (acc : List ℕ × List Bool × Option ℕ) idx =>
        if acc.2.1.getD idx false = false then (acc.1, acc.2.1, some idx)
        else
          match acc.2.2 with
          | none => acc
          | some lastSolid =>
            (copyPixelChannels acc.1 lastSolid idx, acc.2.1.set idx false,
              some lastSolid))
      (dataMask.1, dataMask.2, (none : Option ℕ))
  (final.1, final.2.1)

/-- Row scans, left-to-right then right-to-left per row (lines 431-450). -/
def inpaintHorizontalPasses (cropWidth cropHeight : ℕ)
    (dataMask : List ℕ × List Bool) : List ℕ × List Bool :=
  (List.range cropHeight).foldl
    (fun dm y =>
      let rowIdxs := (List.range cropWidth).map fun x => y * cropWidth + x
      inpaintPass rowIdxs.reverse (inpaintPass rowIdxs dm))
    dataMask

/-- Column scans, top-to-bottom then bottom-to-top per column (452-471). -/
def inpaintVerticalPasses (cropWidth cropHeight : ℕ)
    (dataMask : List ℕ × List Bool) : List ℕ × List Bool :=
  (List.range cropWidth).foldl
    (fun dm x =>
      let colIdxs := (List.range cropHeight).map fun y => y * cropWidth + x
      inpaintPass colIdxs.reverse (inpaintPass colIdxs dm))
    dataMask

/-- Final fill of still-background pixels with the foreground average color
(main.js lines 473-485). -/
def fillRemainingBackground (cropPixels fallbackR fallbackG fallbackB : ℕ)
    (dataMask : List ℕ × List Bool) : List ℕ :=
  (List.range cropPixels).foldl
    (fun data idx =>
      if dataMask.2.getD idx false then
        (((data.set (idx * 4) fallbackR).set (idx * 4 + 1) fallbackG).set
            (idx * 4 + 2) fallbackB).set (idx * 4 + 3) 255
      else data)
    dataMask.1

/-- The crop-and-inpaint stage (main.js lines 365-488), applied once the
fallback checks have passed: copy the padded crop, compute the foreground
average, run the four directional scans, and fill whatever is left. -/
def inpaintCrop (image : RgbaImage) (backgroundMask : List Bool)
    (minX minY cropWidth cropHeight : ℕ) : RgbaImage :=
  let width := image.width
  let colorData :=
    (List.range cropHeight).flatMap fun y =>
      (List.range cropWidth).flatMap fun x =>
        let src := ((y + minY) * width + (x + minX)) * 4
        [image.data.getD src 0, image.data.getD (src + 1) 0,
          image.data.getD (src + 2) 0, image.data.getD (src + 3) 0]
  let cropPixels := cropWidth * cropHeight
  let cropBackgroundMask :=
    (List.range cropHeight).flatMap fun y =>
      (List.range cropWidth).map fun x =>
        backgroundMask.getD ((y + minY) * width + (x + minX)) false
  let backgroundPixelsInCrop := (cropBackgroundMask.filter (fun b => b)).length
  let fgOffsets :=
    (List.range cropPixels).filter fun i => !(cropBackgroundMask.getD i false)
  let avgCount := fgOffsets.length
  let sumR := (fgOffsets.map fun i => colorData.getD (i * 4) 0).sum
  let sumG := (fgOffsets.map fun i => colorData.getD (i * 4 + 1) 0).sum
  let sumB := (fgOffsets.map fun i => colorData.getD (i * 4 + 2) 0).sum
  if backgroundPixelsInCrop = 0 then
    { width := cropWidth, height := cropHeight, data := colorData }
  else
    let scanned :=
      inpaintVerticalPasses cropWidth cropHeight
        (inpaintHorizontalPasses cropWidth cropHeight
          (colorData, cropBackgroundMask))
    let fallbackR :=
      if avgCount ≠ 0 then (jsRound ((sumR : ℚ) / (avgCount : ℚ))).toNat
      else 180
    let fallbackG :=
      if avgCount ≠ 0 then (jsRound ((sumG : ℚ) / (avgCount : ℚ))).toNat
      else 180
    let fallbackB :=
      if avgCount ≠ 0 then (jsRound ((sumB : ℚ) / (avgCount : ℚ))).toNat
      else 180
    { width := cropWidth
      height := cropHeight
      data :=
        fillRemainingBackground cropPixels fallbackR fallbackG fallbackB
          scanned }

/-- main.js `cropAndFillCountertopTextureImage` (lines 226-489): `none`
models every "fall back to the unmodified image" return.  Host canvas-API
failures (missing 2D context, tainted `getImageData`) are outside the model;
the pixel data is taken as already decoded. -/
noncomputable def cropAndFillCountertopTextureImage (image : RgbaImage) :
    Option RgbaImage :=
  if image.width = 0 ∨ image.height = 0 then none
  else if foregroundCountOf image = 0 then none
  else if foregroundFracOf image < 4 / 100 then none
  else if cropWidthOf image < 8 ∨ cropHeightOf image < 8 then none
  else
    some
      (inpaintCrop image (backgroundMaskOf image) (cropMinXOf image)
        (cropMinYOf image) (cropWidthOf image).toNat
        (cropHeightOf image).toNat)

instance : Inhabited MeshProps :=
  ⟨{ nodeId := 0, materialIdx := 0, useFaces16 := false, faceByteOffset := 0
     faceCnt := 0, vertexByteOffset := 0, vertexCnt := 0, normalByteOffset := 0
     uv0ByteOffset := 0, uv1ByteOffset := 0, lightMapIdx := 0
     uv1CoordUScale := 0, uv1CoordVScale := 0, uv1CoordUOffset := 0
     uv1CoordVOffset := 0, transformByteOffset := 0, boundsByteOffset := 0
     quantVertexRange := 0, quantVertexMax := 0, quantUv0Range := 0
     quantUv0Max := 0, autoLightmapResolution := 0, bounds := none }⟩

instance : Inhabited DecodedGeometry := ⟨{ position := [], index := [], uv := none }⟩

/-- The fixture's parsed record list (records A and C; B is dropped). -/
def fixtureParsedRecords : List MeshProps :=
  (parseMeshProps fixtureMeshesBuffer fixtureBoundsBuffer).toOption.getD []

/-- The fixture's parsed record C (the one with a corrupted face index). -/
def fixtureRecordCProps : MeshProps := fixtureParsedRecords.getD 1 default

/-- A mesh record whose vertex data runs past the end of the vertex buffer. -/
def fixtureOutOfRangeProps : MeshProps :=
  { fixtureRecordCProps with vertexByteOffset := 100 }

/-! ## Theorems -/

/-- A manifest sky entry with an authored yaw of 90 degrees. -/
def fixtureSky : SkyEntry :=
  { texture := some { id := "sky-01" }, yawRotation := some 90 }

/-- The fixture's parsed record A (quantVertexMax = 0, identity transform). -/
def fixtureRecordAProps : MeshProps := fixtureParsedRecords.getD 0 default

/-- Overwrite a mesh's normal attribute (the only field
`harmonizeCountertopNormals` writes). -/
noncomputable def setNormal (mesh : SceneMeshObject) (n : List Vec3) :
    SceneMeshObject :=
  { mesh with geometry := { mesh.geometry with normal := some n } }

/-- The normal list one harmonization run writes for mesh `mi`. -/
noncomputable def harmNormals (st su : ℝ) (fT : Bool)
    (M : List SceneMeshObject) (mi : ℕ) : List Vec3 :=
  (List.range (M.getD mi default).geometry.position.length).map fun i =>
    harmonizedNormalAt st su fT M mi i

/-- The body of one harmonization run after the empty guard and tolerance
normalization. -/
noncomputable def harmRun (st su : ℝ) (fT : Bool)
    (M : List SceneMeshObject) : List SceneMeshObject :=
  (List.range M.length).map fun mi =>
    setNormal (M.getD mi default) (harmNormals st su fT M mi)

/-- The contribution of vertex `(mj, j)` to the bucket keyed `k`: the sampled
world normal when the vertex qualifies and falls in that bucket. -/
noncomputable def contribOf (st su : ℝ) (fT : Bool)
    (M : List SceneMeshObject) (mj j : ℕ) (k : BucketKey) : Option Vec3 :=
  let mesh := M.getD mj default
  if vertexQualifies st su fT mesh j then
    if vertexBucketKey st su fT mesh j = k then
      some (vertexSampledNormal st su fT mesh j)
    else none
  else none

/-- The full contribution list of the bucket keyed `k`, in traversal order. -/
noncomputable def contribList (st su : ℝ) (fT : Bool)
    (M : List SceneMeshObject) (k : BucketKey) : List Vec3 :=
  (List.range M.length).flatMap fun mj =>
    (List.range (M.getD mj default).geometry.position.length).filterMap
      fun j => contribOf st su fT M mj j k

/-- A one-mesh scene with the identity world matrix. -/
noncomputable def c3FixtureMesh : SceneMeshObject := default

theorem option_eq_some_getD {α : Type} (o : Option α) (d : α)
    (h : o.isSome = true) : o = some (o.getD d) := by
  cases o with
  | none => simp at h
  | some a => rfl

/-- C1 counterexample: for a mesh-record table with 3 records whose vertex
counts are 3, 0 and 3 (one zero-vertex placeholder, two valid records that
both decode), the scene-build decode loop does not report 1 skipped mesh:
the zero-vertex record is dropped silently by `parseMeshProps` before the
decode loop, so the skipped count it feeds into the load-complete status is
0, not 1. -/
theorem c1_zero_vertex_skip_count_counterexample :
    fixtureMeshesBuffer.ints.getD 8 0 = 3 ∧
    fixtureMeshesBuffer.ints.getD 29 0 = 0 ∧
    fixtureMeshesBuffer.ints.getD 50 0 = 3 ∧
    (parseMeshProps fixtureMeshesBuffer fixtureBoundsBuffer).toOption.map
        (fun records => (decodeSceneCounts records fixtureViews).2)
      ≠ some 1 := by
  refine ⟨by decide, by decide, by decide, ?_⟩
  decide

/-- C1 amended: for the same 3-record table (vertex counts 3, 0, 3), scene
build decodes exactly 2 renderable meshes and the load-complete status
reports 0 skipped meshes, because a record with a non-positive vertex count
is silently discarded during record parsing and never reaches the decode
loop that counts skips. -/
theorem c1_zero_vertex_scene_counts :
    (parseMeshProps fixtureMeshesBuffer fixtureBoundsBuffer).toOption.map
        (fun records => decodeSceneCounts records fixtureViews) = some (2, 0) ∧
    loadCompleteStatus 2 0 = "Loaded 2 meshes (0 skipped)" :=
  ⟨by decide, rfl⟩

/-- C6: geometry decoding of one mesh record is total — modelled by the
`Option` codomain of `decodeMeshGeometry` — and returns `none` ("no geometry
produced") whenever the vertex data, the 4×4 transform or the face data
addressed by the record would read outside its backing buffer, an element
offset is negative, or the required face-index view is absent. -/
theorem c6_decode_returns_none_on_out_of_range (p : MeshProps)
    (views : BufferViews)
    (h :
      (selectedVertexElementOffset p < 0 ∨
        selectedVertexElementOffset p + p.vertexCnt * 3 >
          ((selectedVertexArray p views).length : ℤ)) ∨
      getFloat32At views.transforms p.transformByteOffset 16 = none ∨
      (if p.useFaces16 then views.faces16 else views.faces32) = none ∨
      (jsFloorDiv p.faceByteOffset (if p.useFaces16 then 2 else 4) < 0 ∨
        jsFloorDiv p.faceByteOffset (if p.useFaces16 then 2 else 4) +
            p.faceCnt * 3 >
          ((((if p.useFaces16 then views.faces16 else views.faces32).getD
              []).length : ℕ) : ℤ))) :
    decodeMeshGeometry p views = none := by
  unfold decodeMeshGeometry
  rcases h with hv | ht | hf | hr
  · simp [hv]
  · by_cases hv :
      selectedVertexElementOffset p < 0 ∨
        selectedVertexElementOffset p + p.vertexCnt * 3 >
          ((selectedVertexArray p views).length : ℤ)
    · simp [hv]
    · simp only [if_neg hv, ht]
  · by_cases hv :
      selectedVertexElementOffset p < 0 ∨
        selectedVertexElementOffset p + p.vertexCnt * 3 >
          ((selectedVertexArray p views).length : ℤ)
    · simp [hv]
    · cases hm : getFloat32At views.transforms p.transformByteOffset 16 with
      | none => simp only [if_neg hv, hm]
      | some m => simp only [if_neg hv, hm, hf]
  · by_cases hv :
      selectedVertexElementOffset p < 0 ∨
        selectedVertexElementOffset p + p.vertexCnt * 3 >
          ((selectedVertexArray p views).length : ℤ)
    · simp [hv]
    · cases hm : getFloat32At views.transforms p.transformByteOffset 16 with
      | none => simp only [if_neg hv, hm]
      | some m =>
        cases hfv : (if p.useFaces16 then views.faces16 else views.faces32) with
        | none => simp only [if_neg hv, hm, hfv]
        | some faceArray =>
          rw [hfv] at hr
          simp only [Option.getD_some] at hr
          simp [if_neg hv, hm, hfv, hr]

/-- C6 witness: a record whose vertex bytes start at offset 100 of the
18-byte fixture vertex buffer decodes to `none`. -/
theorem c6_witness :
    ((selectedVertexElementOffset fixtureOutOfRangeProps < 0 ∨
        selectedVertexElementOffset fixtureOutOfRangeProps +
            fixtureOutOfRangeProps.vertexCnt * 3 >
          ((selectedVertexArray fixtureOutOfRangeProps
            fixtureViews).length : ℤ))) ∧
    decodeMeshGeometry fixtureOutOfRangeProps fixtureViews = none :=
  ⟨by decide,
    c6_decode_returns_none_on_out_of_range fixtureOutOfRangeProps fixtureViews
      (Or.inl (by decide))⟩

theorem attemptCandidates_eq_none_iff {τ : Type} (load : String → Option τ) :
    ∀ l : List String,
      attemptCandidates load l = none ↔ ∀ url ∈ l, load url = none := by
  intro l
  induction l with
  | nil => simp [attemptCandidates]
  | cons url rest ih =>
    unfold attemptCandidates
    cases hu : load url with
    | some t => simp [hu]
    | none => simpa [hu] using ih

theorem attemptCandidates_first_success {τ : Type} (load : String → Option τ) :
    ∀ (pre : List String) (url : String) (post : List String) (t : τ),
      (∀ v ∈ pre, load v = none) → load url = some t →
      attemptCandidates load (pre ++ url :: post) = some (t, url) := by
  intro pre
  induction pre with
  | nil =>
    intro url post t _ hu
    simp [attemptCandidates, hu]
  | cons v rest ih =>
    intro url post t hpre hu
    have hv : load v = none := hpre v (by simp)
    simp only [List.cons_append]
    unfold attemptCandidates
    rw [hv]
    exact ih url post t (fun w hw => hpre w (by simp [hw])) hu

/-- C7: texture resolution over the deduplicated non-empty candidate list is
strictly sequential — it resolves with the first candidate the loader
accepts, provided every earlier candidate failed, and it yields `none`
exactly when every candidate fails. -/
theorem c7_candidates_tried_in_order {τ : Type} (load : String → Option τ)
    (candidates : List String) :
    (loadTextureFromCandidates load candidates = none ↔
      ∀ url ∈ uniqueInOrder (candidates.filter (fun c => c ≠ "")),
        load url = none) ∧
    (∀ (pre : List String) (url : String) (post : List String) (t : τ),
      uniqueInOrder (candidates.filter (fun c => c ≠ "")) =
          pre ++ url :: post →
      (∀ v ∈ pre, load v = none) → load url = some t →
      loadTextureFromCandidates load candidates = some (t, url)) := by
  constructor
  · exact attemptCandidates_eq_none_iff load _
  · intro pre url post t hsplit hpre hu
    unfold loadTextureFromCandidates
    rw [hsplit]
    exact attemptCandidates_first_success load pre url post t hpre hu

/-- C7 witness: with a loader that accepts only "b", the candidate list
["a", "", "b", "a", "c"] (which dedupes to ["a", "b", "c"]) resolves to the
texture loaded from "b" after "a" fails. -/
theorem c7_witness :
    loadTextureFromCandidates
        (fun u => if u = "b" then some (5 : ℕ) else none)
        ["a", "", "b", "a", "c"] = some (5, "b") :=
  (c7_candidates_tried_in_order
      (fun u => if u = "b" then some (5 : ℕ) else none)
      ["a", "", "b", "a", "c"]).2
    ["a"] "b" ["c"] 5 (by decide) (by decide) (by decide)

/-- C9: applying a countertop texture when the detected countertop mesh list
is empty (and the texture id is non-empty after trimming) reports the
non-fatal "no targets" status and returns the state unchanged — in
particular every mesh's material slot and UV/normal attributes and the
override-material cache are untouched. -/
theorem c9_no_targets_leaves_state_unchanged {τ : Type}
    (loadCountertopTex : String → Option τ) (state : ViewerState τ)
    (textureId : String) (hid : jsTrim textureId ≠ "")
    (hempty : state.countertopMeshes = []) :
    applyCountertopTexture loadCountertopTex state textureId =
        (state, ApplyStatus.noTargets) ∧
    (applyCountertopTexture loadCountertopTex state textureId).1.meshes =
        state.meshes ∧
    (applyCountertopTexture loadCountertopTex state
        textureId).1.countertopOverrideMaterials =
      state.countertopOverrideMaterials := by
  have h :
      applyCountertopTexture loadCountertopTex state textureId =
        (state, ApplyStatus.noTargets) := by
    unfold applyCountertopTexture
    rw [if_neg hid]
    rw [if_pos (by simp [hempty])]
  exact ⟨h, by rw [h], by rw [h]⟩

/-- C9 witness: an empty countertop mesh list with texture id "slab-1". -/
theorem c9_witness :
    applyCountertopTexture (fun _ => (none : Option ℕ))
        { meshes := []
          countertopMeshes := []
          countertopMaterialIndexes := []
          countertopOverrideMaterials := []
          materialByIndex := []
          countertopNormalsHarmonized := false } "slab-1" =
      ({ meshes := []
         countertopMeshes := []
         countertopMaterialIndexes := []
         countertopOverrideMaterials := []
         materialByIndex := []
         countertopNormalsHarmonized := false }, ApplyStatus.noTargets) :=
  (c9_no_targets_leaves_state_unchanged _ _ _ (by decide) rfl).1

/-- C10: for a scene material whose `emissive` field is present (truthy),
the built standard material's emissive color is derived from the authored
`baseColor` channels through `rgbArrayToColor` (each channel clamped to
[0, 1], black fallback) — independent of the emissive payload itself — and
its emissive intensity is the authored `emissionStrength` when that is a
finite number and 1 otherwise. -/
theorem c10_emissive_from_base_color {τ : Type}
    (resolveTexture : Option TexRef → Option τ) (source : SceneMaterial)
    (emissivePayload : List JSNum)
    (h : source.emissive = some emissivePayload) :
    (buildMaterialForEntry resolveTexture source).emissive =
        rgbArrayToColor source.baseColor (colorOfBytes 0 0 0) ∧
    (∀ strength : ℚ, source.emissionStrength = some strength →
      (buildMaterialForEntry resolveTexture source).emissiveIntensity =
        strength) ∧
    (source.emissionStrength = (none : Option ℚ) →
      (buildMaterialForEntry resolveTexture source).emissiveIntensity = 1) ∧
    (∀ otherPayload : List JSNum,
      buildMaterialForEntry resolveTexture
          { source with emissive := some otherPayload } =
        buildMaterialForEntry resolveTexture source) := by
  unfold buildMaterialForEntry materialConfigFromSceneEntry
  simp only [h, Option.isSome_some, if_pos]
  refine ⟨?_, ?_, ?_, ?_⟩
  · cases hr : resolveTexture source.baseColorTexture <;> simp [hr]
  · intro strength hs
    cases hr : resolveTexture source.baseColorTexture <;>
      simp [hr, hs, Option.getD]
  · intro hs
    cases hr : resolveTexture source.baseColorTexture <;>
      simp [hr, hs, Option.getD]
  · intro otherPayload
    trivial

/-- C10 witness: an emissive material with baseColor [2, 0.5, NaN] (clamped
to [1, 0.5, 1]) and emissionStrength 3. -/
theorem c10_witness :
    (buildMaterialForEntry (fun _ => (none : Option ℕ))
        { name := some "lamp"
          baseColorTexture := none
          baseColor := some [some 2, some (1 / 2), none]
          roughness := some (1 / 2)
          metallic := some 0
          opacity := some 1
          doubleSided := false
          emissive := some [some 9]
          emissionStrength := some 3 }).emissive =
      rgbArrayToColor (some [some 2, some (1 / 2), none])
        (colorOfBytes 0 0 0) :=
  (c10_emissive_from_base_color (fun _ => (none : Option ℕ)) _ [some 9]
    rfl).1

/-- C2 counterexample: with a resolvable first sky carrying a finite
authored yaw of 90 degrees (and a renderer whose scene exposes
`environmentRotation`), `applySceneExterior` sets the scene's environment
rotation to the same yaw (z = 90° in radians ≠ 0), so the environment
reflection of the sky texture IS rotated by the yaw, contradicting the
claim that only the sky geometry is rotated. -/
theorem c2_environment_rotation_counterexample :
    (applySceneExterior (fun _ => some ()) [fixtureSky] true
        true).environmentRotation = some (0, 0, degToRad 90) ∧
    degToRad 90 ≠ 0 := by
  constructor
  · simp only [applySceneExterior, fixtureSky, List.head?]
    rw [if_neg (show ¬("sky-01" : String) = "" by decide)]
    norm_num
  · unfold degToRad
    have hpi := Real.pi_pos
    intro h
    nlinarith

/-- C2 amended: when the first manifest sky resolves and carries a finite
authored yaw, the yaw (converted to radians) rotates the sky sphere's
orientation — composed after the Y-up to Z-up correction — and is ALSO
applied to the environment reflection through the scene's environment
rotation (z = yaw) whenever the renderer exposes that property; only the
cloned environment texture itself carries no texture-level rotation, and the
scene background rotation is left at zero. -/
theorem c2_sky_yaw_rotation {τ : Type} (resolveTexture : TexRef → Option τ)
    (skies : List SkyEntry) (firstSky : SkyEntry) (textureRef : TexRef)
    (skyTexture : τ) (yawDegrees : ℚ)
    (supportsEnvironmentRotation supportsBackgroundRotation : Bool)
    (h1 : skies.head? = some firstSky)
    (h2 : firstSky.texture = some textureRef) (h3 : textureRef.id ≠ "")
    (h4 : resolveTexture textureRef = some skyTexture)
    (h5 : firstSky.yawRotation = some yawDegrees) :
    (applySceneExterior resolveTexture skies supportsEnvironmentRotation
        supportsBackgroundRotation).skyMesh =
      some { textureMap := skyTexture
             quaternion :=
               quatMultiply
                 (quatFromAxisAngle 0 0 1 (degToRad (yawDegrees : ℝ)))
                 (quatFromAxisAngle 1 0 0 (Real.pi / 2)) } ∧
    (applySceneExterior resolveTexture skies supportsEnvironmentRotation
        supportsBackgroundRotation).environmentMap =
      some { sourceTexture := skyTexture, textureRotation := 0 } ∧
    (applySceneExterior resolveTexture skies supportsEnvironmentRotation
        supportsBackgroundRotation).environmentRotation =
      (if supportsEnvironmentRotation then
        some (0, 0, degToRad (yawDegrees : ℝ))
      else none) ∧
    (applySceneExterior resolveTexture skies supportsEnvironmentRotation
        supportsBackgroundRotation).backgroundRotation =
      (if supportsBackgroundRotation then some (0, 0, 0) else none) := by
  unfold applySceneExterior
  rw [h1]
  simp only [h2, h3, h4, h5, if_neg h3]
  exact ⟨rfl, rfl, rfl, rfl⟩

/-- C2 witness for the amended claim: the 90-degree fixture sky. -/
theorem c2_witness :
    (applySceneExterior (fun _ => some (0 : ℕ)) [fixtureSky] true
        false).skyMesh =
      some { textureMap := (0 : ℕ)
             quaternion :=
               quatMultiply
                 (quatFromAxisAngle 0 0 1 (degToRad ((90 : ℚ) : ℝ)))
                 (quatFromAxisAngle 1 0 0 (Real.pi / 2)) } :=
  (c2_sky_yaw_rotation (fun _ => some (0 : ℕ)) [fixtureSky] fixtureSky
    { id := "sky-01" } 0 90 true false rfl rfl (by decide) rfl rfl).1

/-- C8: background removal falls back to the unmodified image — the
processing function returns `none`, so the texture is used as loaded —
whenever the foreground covers less than 4% of the image's pixels or the
computed (padded) bounding crop of the foreground is smaller than 8×8
pixels. -/
theorem c8_background_removal_fallback (image : RgbaImage)
    (h :
      foregroundFracOf image < 4 / 100 ∨ cropWidthOf image < 8 ∨
        cropHeightOf image < 8) :
    cropAndFillCountertopTextureImage image = none := by
  unfold cropAndFillCountertopTextureImage
  by_cases hz : image.width = 0 ∨ image.height = 0
  · simp [hz]
  · rw [if_neg hz]
    by_cases hc : foregroundCountOf image = 0
    · simp [hc]
    · rw [if_neg hc]
      by_cases hf : foregroundFracOf image < 4 / 100
      · simp [hf]
      · rw [if_neg hf]
        have hcrop : cropWidthOf image < 8 ∨ cropHeightOf image < 8 := by
          rcases h with h | h | h
          · exact absurd h hf
          · exact Or.inl h
          · exact Or.inr h
        simp [hcrop]

/-- C8 witness: a fully transparent 2×2 image — every border pixel has alpha
below 8, so the flood fill marks the whole image as background, the
foreground fraction is 0 < 4%, and processing falls back to `none`. -/
theorem c8_witness :
    (foregroundFracOf { width := 2, height := 2, data := List.replicate 16 0 } <
        4 / 100 ∨
      cropWidthOf { width := 2, height := 2, data := List.replicate 16 0 } <
        8 ∨
      cropHeightOf { width := 2, height := 2, data := List.replicate 16 0 } <
        8) ∧
    cropAndFillCountertopTextureImage
        { width := 2, height := 2, data := List.replicate 16 0 } = none := by
  have hcount :
      foregroundCountOf { width := 2, height := 2, data := List.replicate 16 0 } =
        0 := by decide
  have hfrac :
      foregroundFracOf { width := 2, height := 2, data := List.replicate 16 0 } <
        4 / 100 := by
    unfold foregroundFracOf
    rw [hcount]
    norm_num
  exact ⟨Or.inl hfrac,
    c8_background_removal_fallback _ (Or.inl hfrac)⟩

theorem decodeMeshGeometry_some_elim (p : MeshProps) (views : BufferViews)
    (g : DecodedGeometry) (hg : decodeMeshGeometry p views = some g) :
    ∃ transformMatrix faceArray,
      getFloat32At views.transforms p.transformByteOffset 16 =
          some transformMatrix ∧
      (if p.useFaces16 then views.faces16 else views.faces32) =
          some faceArray ∧
      g.position = decodedPositions p views transformMatrix ∧
      g.index = decodedIndices p faceArray := by
  unfold decodeMeshGeometry at hg
  by_cases hv :
    selectedVertexElementOffset p < 0 ∨
      selectedVertexElementOffset p + p.vertexCnt * 3 >
        ((selectedVertexArray p views).length : ℤ)
  · rw [if_pos hv] at hg
    exact absurd hg (by simp)
  · rw [if_neg hv] at hg
    cases hm : getFloat32At views.transforms p.transformByteOffset 16 with
    | none =>
      rw [hm] at hg
      exact absurd hg (by simp)
    | some transformMatrix =>
      rw [hm] at hg
      cases hf : (if p.useFaces16 then views.faces16 else views.faces32) with
      | none =>
        rw [hf] at hg
        exact absurd hg (by simp)
      | some faceArray =>
        rw [hf] at hg
        dsimp only at hg
        by_cases hr :
          jsFloorDiv p.faceByteOffset (if p.useFaces16 then 2 else 4) < 0 ∨
            jsFloorDiv p.faceByteOffset (if p.useFaces16 then 2 else 4) +
                p.faceCnt * 3 >
              (faceArray.length : ℤ)
        · rw [if_pos hr] at hg
          exact absurd hg (by simp)
        · rw [if_neg hr] at hg
          rw [Option.some_inj] at hg
          exact ⟨transformMatrix, faceArray, rfl, rfl, by rw [← hg], by
            rw [← hg]⟩

theorem parseMeshRecords_mem_counts_pos (version : ℤ) (ints : List ℤ)
    (floats boundsFloats : List ℚ) (stride : ℕ) :
    ∀ (fuel offset : ℕ) (p : MeshProps),
      p ∈ parseMeshRecords version ints floats boundsFloats stride fuel
        offset →
      0 < p.faceCnt ∧ 0 < p.vertexCnt := by
  intro fuel
  induction fuel with
  | zero =>
    intro offset p hp
    simp [parseMeshRecords] at hp
  | succ fuel ih =>
    intro offset p hp
    unfold parseMeshRecords at hp
    by_cases hb : offset + 20 < ints.length
    · rw [if_pos hb] at hp
      by_cases hcnt : ints.getD (offset + 4) 0 ≤ 0 ∨ ints.getD (offset + 6) 0 ≤ 0
      · rw [if_pos hcnt] at hp
        exact ih _ p hp
      · rw [if_neg hcnt] at hp
        rcases List.mem_cons.mp hp with heq | hmem
        · subst heq
          push_neg at hcnt
          constructor
          · simpa [meshRecordAt] using hcnt.1
          · simpa [meshRecordAt] using hcnt.2
        · exact ih _ p hmem
    · rw [if_neg hb] at hp
      simp at hp

theorem parseMeshProps_mem_counts_pos (meshesBuffer boundsBuffer : RawBuffer)
    (records : List MeshProps) (p : MeshProps)
    (hparse : parseMeshProps meshesBuffer boundsBuffer = Except.ok records)
    (hp : p ∈ records) : 0 < p.faceCnt ∧ 0 < p.vertexCnt := by
  unfold parseMeshProps at hparse
  by_cases hs : meshesBuffer.ints.getD 1 0 < 21
  · rw [if_pos hs] at hparse
    exact absurd hparse (by simp)
  · rw [if_neg hs] at hparse
    rw [show ∀ a b : List MeshProps,
        (Except.ok a : Except String (List MeshProps)) = Except.ok b ↔ a = b
      from fun a b => by simp] at hparse
    subst hparse
    exact parseMeshRecords_mem_counts_pos _ _ _ _ _ _ _ p hp

/-- C4: for every mesh record of a parsed record table whose decode yields
geometry, every entry of the reconstructed index buffer is strictly below
the record's vertex count — a raw face index at or above the vertex count
(whether it came through the 16-bit or the 32-bit face view, including
deliberately corrupted input) is replaced with 0, which is below the
parse-guaranteed positive vertex count. -/
theorem c4_face_indices_clamped (meshesBuffer boundsBuffer : RawBuffer)
    (records : List MeshProps) (p : MeshProps) (views : BufferViews)
    (g : DecodedGeometry)
    (hparse : parseMeshProps meshesBuffer boundsBuffer = Except.ok records)
    (hp : p ∈ records) (hg : decodeMeshGeometry p views = some g) :
    ∀ n ∈ g.index, (n : ℤ) < p.vertexCnt := by
  have hpos : 0 < p.vertexCnt :=
    (parseMeshProps_mem_counts_pos meshesBuffer boundsBuffer records p hparse
      hp).2
  obtain ⟨transformMatrix, faceArray, _, _, _, hidx⟩ :=
    decodeMeshGeometry_some_elim p views g hg
  rw [hidx]
  intro n hn
  unfold decodedIndices at hn
  rw [List.mem_map] at hn
  obtain ⟨i, _, heq⟩ := hn
  simp only at heq
  by_cases hlt :
    ((faceArray.getD
        ((jsFloorDiv p.faceByteOffset
            (if p.useFaces16 then 2 else 4)).toNat + i) 0 : ℤ) : ℤ) <
      p.vertexCnt
  · rw [if_pos hlt] at heq
    subst heq
    exact hlt
  · rw [if_neg hlt] at heq
    subst heq
    simpa using hpos

/-- C4 witness: the fixture's record C carries the corrupted raw face index
9 with vertex count 3; its decoded index buffer stays below 3. -/
theorem c4_witness :
    parseMeshProps fixtureMeshesBuffer fixtureBoundsBuffer =
        Except.ok fixtureParsedRecords ∧
    fixtureRecordCProps ∈ fixtureParsedRecords ∧
    decodeMeshGeometry fixtureRecordCProps fixtureViews =
        some ((decodeMeshGeometry fixtureRecordCProps fixtureViews).getD
          default) ∧
    ∀ n ∈ ((decodeMeshGeometry fixtureRecordCProps fixtureViews).getD
        default).index,
      (n : ℤ) < fixtureRecordCProps.vertexCnt := by
  have hparse :
      parseMeshProps fixtureMeshesBuffer fixtureBoundsBuffer =
        Except.ok fixtureParsedRecords := rfl
  have hmem : fixtureRecordCProps ∈ fixtureParsedRecords :=
    List.Mem.tail _ (List.Mem.head _)
  have hdec :
      decodeMeshGeometry fixtureRecordCProps fixtureViews =
        some ((decodeMeshGeometry fixtureRecordCProps fixtureViews).getD
          default) :=
    option_eq_some_getD _ _ (by decide)
  exact ⟨hparse, hmem, hdec,
    c4_face_indices_clamped fixtureMeshesBuffer fixtureBoundsBuffer
      fixtureParsedRecords fixtureRecordCProps fixtureViews _ hparse hmem
      hdec⟩

theorem range_flatMap_triple_length (F : ℕ → ℚ × ℚ × ℚ) (n : ℕ) :
    ((List.range n).flatMap fun v => [(F v).1, (F v).2.1, (F v).2.2]).length =
      3 * n := by
  induction n with
  | zero => simp
  | succ n ih =>
    rw [List.range_succ, List.flatMap_append, List.length_append, ih]
    simp
    ring

theorem range_flatMap_triple_getD (F : ℕ → ℚ × ℚ × ℚ) (n : ℕ) :
    ∀ i < n,
      ((List.range n).flatMap fun v =>
          [(F v).1, (F v).2.1, (F v).2.2]).getD (3 * i) 0 = (F i).1 ∧
      ((List.range n).flatMap fun v =>
          [(F v).1, (F v).2.1, (F v).2.2]).getD (3 * i + 1) 0 = (F i).2.1 ∧
      ((List.range n).flatMap fun v =>
          [(F v).1, (F v).2.1, (F v).2.2]).getD (3 * i + 2) 0 = (F i).2.2 := by
  induction n with
  | zero => intro i hi; omega
  | succ n ih =>
    intro i hi
    rw [List.range_succ, List.flatMap_append]
    rcases Nat.lt_succ_iff_lt_or_eq.mp hi with hlt | heq
    · have h0 :
          (3 : ℕ) * i <
            ((List.range n).flatMap fun v =>
              [(F v).1, (F v).2.1, (F v).2.2]).length := by
        rw [range_flatMap_triple_length]; omega
      have h1 :
          (3 : ℕ) * i + 1 <
            ((List.range n).flatMap fun v =>
              [(F v).1, (F v).2.1, (F v).2.2]).length := by
        rw [range_flatMap_triple_length]; omega
      have h2 :
          (3 : ℕ) * i + 2 <
            ((List.range n).flatMap fun v =>
              [(F v).1, (F v).2.1, (F v).2.2]).length := by
        rw [range_flatMap_triple_length]; omega
      rw [List.getD_append _ _ _ _ h0, List.getD_append _ _ _ _ h1,
        List.getD_append _ _ _ _ h2]
      exact ih i hlt
    · subst heq
      have hlen :
          ((List.range i).flatMap fun v =>
            [(F v).1, (F v).2.1, (F v).2.2]).length = 3 * i :=
        range_flatMap_triple_length F i
      refine ⟨?_, ?_, ?_⟩
      · rw [List.getD_append_right _ _ _ _ (by omega), hlen]
        simp
      · rw [List.getD_append_right _ _ _ _ (by omega), hlen]
        have : 3 * i + 1 - 3 * i = 1 := by omega
        rw [this]
        simp
      · rw [List.getD_append_right _ _ _ _ (by omega), hlen]
        have : 3 * i + 2 - 3 * i = 2 := by omega
        rw [this]
        simp

/-- C5: for every record whose decode yields geometry, each decoded vertex
is the per-record 4×4 transform applied to the dequantized triple — the
stored integer of each axis multiplied by the single scale factor
`quantVertexRange / quantVertexMax` (the same factor for x, y and z), the
factor being 1 when `quantVertexMax` is 0 so that dequantized coordinates
equal the raw stored values. -/
theorem c5_vertex_dequantization (p : MeshProps) (views : BufferViews)
    (g : DecodedGeometry) (hg : decodeMeshGeometry p views = some g) :
    (p.quantVertexMax ≠ 0 →
      vertexFactor p = p.quantVertexRange / (p.quantVertexMax : ℚ)) ∧
    (p.quantVertexMax = 0 → vertexFactor p = 1) ∧
    ∃ transformMatrix,
      getFloat32At views.transforms p.transformByteOffset 16 =
          some transformMatrix ∧
      ∀ vertexIndex < p.vertexCnt.toNat,
        (g.position.getD (3 * vertexIndex) 0,
          g.position.getD (3 * vertexIndex + 1) 0,
          g.position.getD (3 * vertexIndex + 2) 0) =
          transformPoint transformMatrix
            (((selectedVertexArray p views).getD
                ((selectedVertexElementOffset p + vertexIndex * 3).toNat) 0 :
                ℚ) *
              vertexFactor p)
            (((selectedVertexArray p views).getD
                ((selectedVertexElementOffset p + vertexIndex * 3).toNat + 1)
                0 : ℚ) *
              vertexFactor p)
            (((selectedVertexArray p views).getD
                ((selectedVertexElementOffset p + vertexIndex * 3).toNat + 2)
                0 : ℚ) *
              vertexFactor p) := by
  refine ⟨fun hnz => by simp [vertexFactor, hnz], fun hz => by
    simp [vertexFactor, hz], ?_⟩
  obtain ⟨transformMatrix, faceArray, hm, _, hpos, _⟩ :=
    decodeMeshGeometry_some_elim p views g hg
  refine ⟨transformMatrix, hm, ?_⟩
  intro vertexIndex hvi
  rw [hpos]
  have h3 :=
    range_flatMap_triple_getD
      (fun v =>
        transformPoint transformMatrix
          (((selectedVertexArray p views).getD
              ((selectedVertexElementOffset p + v * 3).toNat) 0 : ℚ) *
            vertexFactor p)
          (((selectedVertexArray p views).getD
              ((selectedVertexElementOffset p + v * 3).toNat + 1) 0 : ℚ) *
            vertexFactor p)
          (((selectedVertexArray p views).getD
              ((selectedVertexElementOffset p + v * 3).toNat + 2) 0 : ℚ) *
            vertexFactor p))
      p.vertexCnt.toNat vertexIndex hvi
  unfold decodedPositions
  exact Prod.ext h3.1 (Prod.ext h3.2.1 h3.2.2)

/-- C5 witness: fixture record A has `quantVertexMax = 0` and an identity
transform, so its decoded positions are the raw stored vertex bytes. -/
theorem c5_witness :
    fixtureRecordAProps.quantVertexMax = 0 ∧
    ((fixtureRecordAProps.quantVertexMax ≠ 0 →
        vertexFactor fixtureRecordAProps =
          fixtureRecordAProps.quantVertexRange /
            (fixtureRecordAProps.quantVertexMax : ℚ)) ∧
      (fixtureRecordAProps.quantVertexMax = 0 →
        vertexFactor fixtureRecordAProps = 1) ∧
      ∃ transformMatrix,
        getFloat32At fixtureViews.transforms
            fixtureRecordAProps.transformByteOffset 16 =
            some transformMatrix ∧
        ∀ vertexIndex < fixtureRecordAProps.vertexCnt.toNat,
          (((decodeMeshGeometry fixtureRecordAProps fixtureViews).getD
                default).position.getD (3 * vertexIndex) 0,
            ((decodeMeshGeometry fixtureRecordAProps fixtureViews).getD
                default).position.getD (3 * vertexIndex + 1) 0,
            ((decodeMeshGeometry fixtureRecordAProps fixtureViews).getD
                default).position.getD (3 * vertexIndex + 2) 0) =
            transformPoint transformMatrix
              (((selectedVertexArray fixtureRecordAProps fixtureViews).getD
                  ((selectedVertexElementOffset fixtureRecordAProps +
                      vertexIndex * 3).toNat)
                  0 : ℚ) *
                vertexFactor fixtureRecordAProps)
              (((selectedVertexArray fixtureRecordAProps fixtureViews).getD
                  ((selectedVertexElementOffset fixtureRecordAProps +
                      vertexIndex * 3).toNat + 1)
                  0 : ℚ) *
                vertexFactor fixtureRecordAProps)
              (((selectedVertexArray fixtureRecordAProps fixtureViews).getD
                  ((selectedVertexElementOffset fixtureRecordAProps +
                      vertexIndex * 3).toNat + 2)
                  0 : ℚ) *
                vertexFactor fixtureRecordAProps)) :=
  ⟨by decide,
    c5_vertex_dequantization fixtureRecordAProps fixtureViews _
      (option_eq_some_getD _ _ (by decide))⟩


/-! ### Vector algebra lemmas for the harmonization analysis -/

theorem vlengthSq_nonneg (v : Vec3) : 0 ≤ vlengthSq v := by
  unfold vlengthSq
  nlinarith [mul_self_nonneg v.x, mul_self_nonneg v.y, mul_self_nonneg v.z]

theorem vlength_nonneg (v : Vec3) : 0 ≤ vlength v := Real.sqrt_nonneg _

theorem vlengthSq_eq_zero_iff (v : Vec3) :
    vlengthSq v = 0 ↔ v = ⟨0, 0, 0⟩ := by
  constructor
  · intro h
    unfold vlengthSq at h
    have hx : v.x * v.x = 0 := by
      nlinarith [mul_self_nonneg v.x, mul_self_nonneg v.y, mul_self_nonneg v.z]
    have hy : v.y * v.y = 0 := by
      nlinarith [mul_self_nonneg v.x, mul_self_nonneg v.y, mul_self_nonneg v.z]
    have hz : v.z * v.z = 0 := by
      nlinarith [mul_self_nonneg v.x, mul_self_nonneg v.y, mul_self_nonneg v.z]
    ext
    · exact mul_self_eq_zero.mp hx
    · exact mul_self_eq_zero.mp hy
    · exact mul_self_eq_zero.mp hz
  · intro h
    subst h
    unfold vlengthSq
    ring

theorem vlength_eq_zero_iff (v : Vec3) : vlength v = 0 ↔ v = ⟨0, 0, 0⟩ := by
  unfold vlength
  rw [Real.sqrt_eq_zero (vlengthSq_nonneg v)]
  exact vlengthSq_eq_zero_iff v

theorem vlength_pos_of_ne_zero (v : Vec3) (hv : v ≠ ⟨0, 0, 0⟩) :
    0 < vlength v :=
  lt_of_le_of_ne (vlength_nonneg v)
    (fun h => hv ((vlength_eq_zero_iff v).mp h.symm))

theorem vlengthSq_vsmul (c : ℝ) (v : Vec3) :
    vlengthSq (vsmul c v) = c ^ 2 * vlengthSq v := by
  unfold vlengthSq vsmul
  ring

theorem vlength_vsmul (c : ℝ) (v : Vec3) :
    vlength (vsmul c v) = |c| * vlength v := by
  unfold vlength
  rw [vlengthSq_vsmul, Real.sqrt_mul (sq_nonneg c), Real.sqrt_sq_eq_abs]

theorem vlength_mul_self (v : Vec3) : vlength v * vlength v = vlengthSq v :=
  Real.mul_self_sqrt (vlengthSq_nonneg v)

theorem vsmul_zero_vec (c : ℝ) : vsmul c ⟨0, 0, 0⟩ = ⟨0, 0, 0⟩ := by
  unfold vsmul
  ext <;> simp

theorem vnormalize_zero : vnormalize ⟨0, 0, 0⟩ = ⟨0, 0, 0⟩ := by
  unfold vnormalize
  exact vsmul_zero_vec _

theorem vnormalize_of_ne_zero (v : Vec3) (hv : v ≠ ⟨0, 0, 0⟩) :
    vnormalize v = vsmul (1 / vlength v) v := by
  unfold vnormalize
  rw [if_neg (fun h => hv ((vlength_eq_zero_iff v).mp h))]

theorem vlength_vnormalize (v : Vec3) (hv : v ≠ ⟨0, 0, 0⟩) :
    vlength (vnormalize v) = 1 := by
  rw [vnormalize_of_ne_zero v hv, vlength_vsmul]
  have hl : 0 < vlength v := vlength_pos_of_ne_zero v hv
  rw [abs_of_pos (by positivity)]
  field_simp

theorem vsmul_one (v : Vec3) : vsmul 1 v = v := by
  unfold vsmul
  ext <;> simp

theorem vnormalize_of_unit (v : Vec3) (h : vlength v = 1) :
    vnormalize v = v := by
  unfold vnormalize
  rw [h, if_neg one_ne_zero]
  simpa using vsmul_one v

theorem vnormalize_idempotent (v : Vec3) :
    vnormalize (vnormalize v) = vnormalize v := by
  by_cases hv : v = ⟨0, 0, 0⟩
  · subst hv
    rw [vnormalize_zero, vnormalize_zero]
  · exact vnormalize_of_unit _ (vlength_vnormalize v hv)

theorem vnormalize_vsmul_pos (c : ℝ) (hc : 0 < c) (v : Vec3) :
    vnormalize (vsmul c v) = vnormalize v := by
  by_cases hv : v = ⟨0, 0, 0⟩
  · subst hv
    rw [vsmul_zero_vec]
  · have hcv : vsmul c v ≠ ⟨0, 0, 0⟩ := by
      intro h
      have h0 := (vlength_eq_zero_iff _).mpr h
      rw [vlength_vsmul, abs_of_pos hc] at h0
      have hl := vlength_pos_of_ne_zero v hv
      nlinarith
    rw [vnormalize_of_ne_zero _ hcv, vnormalize_of_ne_zero _ hv,
      vlength_vsmul, abs_of_pos hc]
    have hl := vlength_pos_of_ne_zero v hv
    unfold vsmul
    ext <;> field_simp <;> ring

theorem abs_z_le_vlength (v : Vec3) : |v.z| ≤ vlength v := by
  unfold vlength vlengthSq
  rw [show |v.z| = Real.sqrt (v.z ^ 2) by rw [Real.sqrt_sq_eq_abs]]
  apply Real.sqrt_le_sqrt
  nlinarith [mul_self_nonneg v.x, mul_self_nonneg v.y]

theorem abs_z_vnormalize_le_one (v : Vec3) : |(vnormalize v).z| ≤ 1 := by
  by_cases hv : v = ⟨0, 0, 0⟩
  · subst hv
    rw [vnormalize_zero]
    norm_num
  · exact le_trans (abs_z_le_vlength _) (le_of_eq (vlength_vnormalize v hv))

theorem vdot_le_vlength_mul (a b : Vec3) :
    vdot a b ≤ vlength a * vlength b := by
  have hcs : (vdot a b) ^ 2 ≤ vlengthSq a * vlengthSq b := by
    unfold vdot vlengthSq
    nlinarith [sq_nonneg (a.x * b.y - a.y * b.x),
      sq_nonneg (a.x * b.z - a.z * b.x), sq_nonneg (a.y * b.z - a.z * b.y)]
  calc vdot a b ≤ |vdot a b| := le_abs_self _
    _ = Real.sqrt ((vdot a b) ^ 2) := (Real.sqrt_sq_eq_abs _).symm
    _ ≤ Real.sqrt (vlengthSq a * vlengthSq b) := Real.sqrt_le_sqrt hcs
    _ = vlength a * vlength b := by
        rw [Real.sqrt_mul (vlengthSq_nonneg a)]
        rfl

theorem vlength_vadd_le (a b : Vec3) :
    vlength (vadd a b) ≤ vlength a + vlength b := by
  have hd := vdot_le_vlength_mul a b
  have ha := vlength_mul_self a
  have hb := vlength_mul_self b
  have key : vlengthSq (vadd a b) ≤ (vlength a + vlength b) ^ 2 := by
    unfold vlengthSq vadd
    unfold vdot at hd
    unfold vlengthSq at ha hb
    dsimp only
    nlinarith [hd, ha, hb]
  calc vlength (vadd a b) = Real.sqrt (vlengthSq (vadd a b)) := rfl
    _ ≤ Real.sqrt ((vlength a + vlength b) ^ 2) := Real.sqrt_le_sqrt key
    _ = |vlength a + vlength b| := Real.sqrt_sq_eq_abs _
    _ = vlength a + vlength b :=
        abs_of_nonneg (add_nonneg (vlength_nonneg a) (vlength_nonneg b))

theorem vsum_nil : vsum [] = ⟨0, 0, 0⟩ := rfl

theorem vsum_cons (a : Vec3) (l : List Vec3) :
    vsum (a :: l) = vadd a (vsum l) := rfl

theorem vlength_zero_vec : vlength ⟨0, 0, 0⟩ = 0 := by
  rw [vlength_eq_zero_iff]

theorem vsum_z (l : List Vec3) : (vsum l).z = (l.map Vec3.z).sum := by
  induction l with
  | nil => simp [vsum_nil]
  | cons a l ih =>
    rw [vsum_cons]
    unfold vadd
    simp [ih]

theorem vlength_vsum_le (l : List Vec3) :
    vlength (vsum l) ≤ (l.map vlength).sum := by
  induction l with
  | nil => simp [vsum_nil, vlength_zero_vec]
  | cons a l ih =>
    rw [vsum_cons]
    calc vlength (vadd a (vsum l)) ≤ vlength a + vlength (vsum l) :=
          vlength_vadd_le _ _
      _ ≤ vlength a + (l.map vlength).sum := by linarith
      _ = ((a :: l).map vlength).sum := by simp

theorem vsum_const (l : List Vec3) (c : Vec3) (h : ∀ x ∈ l, x = c) :
    vsum l = vsmul (l.length : ℝ) c := by
  induction l with
  | nil =>
    rw [vsum_nil]
    unfold vsmul
    ext <;> simp
  | cons a l ih =>
    rw [vsum_cons, h a (by simp),
      ih (fun x hx => h x (by simp [hx]))]
    unfold vadd vsmul
    ext <;> (simp; push_cast; ring)

theorem list_sum_ge_length_mul (L : List ℝ) (m : ℝ)
    (h : ∀ x ∈ L, m ≤ x) : (L.length : ℝ) * m ≤ L.sum := by
  induction L with
  | nil => simp
  | cons a L ih =>
    have ha := h a (by simp)
    have hL := ih (fun x hx => h x (by simp [hx]))
    simp only [List.length_cons, List.sum_cons]
    push_cast
    nlinarith

theorem list_sum_le_length (L : List ℝ) (h : ∀ x ∈ L, x ≤ 1) :
    L.sum ≤ (L.length : ℝ) := by
  induction L with
  | nil => simp
  | cons a L ih =>
    have ha := h a (by simp)
    have hL := ih (fun x hx => h x (by simp [hx]))
    simp only [List.length_cons, List.sum_cons]
    push_cast
    nlinarith

theorem worldUp_length : vlength worldUp = 1 := by
  unfold worldUp vlength vlengthSq
  norm_num

theorem vnormalize_worldUp : vnormalize worldUp = worldUp :=
  vnormalize_of_unit _ worldUp_length

/-! ### Identity world-matrix facts -/

theorem applyMatrix4_identity (v : Vec3) : applyMatrix4 mat4Identity v = v := by
  unfold applyMatrix4 mat4Identity
  ext <;> (dsimp only; norm_num)

theorem m3FromMat4_identity : m3FromMat4 mat4Identity = mat3Identity := rfl

theorem m3invert_identity : m3invert mat3Identity = mat3Identity := by
  unfold m3invert mat3Identity
  norm_num

theorem m3transpose_identity : m3transpose mat3Identity = mat3Identity := rfl

theorem getNormalMatrix_identity :
    getNormalMatrix mat4Identity = mat3Identity := by
  unfold getNormalMatrix
  rw [m3FromMat4_identity, m3invert_identity, m3transpose_identity]

theorem applyMatrix3_identity (v : Vec3) : applyMatrix3 mat3Identity v = v := by
  unfold applyMatrix3 mat3Identity
  ext <;> (dsimp only; ring)

theorem vdot_worldUp (v : Vec3) : vdot v worldUp = v.z := by
  unfold vdot worldUp
  dsimp only
  ring

/-! ### Structure of one harmonization run -/

theorem setNormal_matrixWorld (m : SceneMeshObject) (n : List Vec3) :
    (setNormal m n).matrixWorld = m.matrixWorld := rfl

theorem setNormal_position (m : SceneMeshObject) (n : List Vec3) :
    (setNormal m n).geometry.position = m.geometry.position := rfl

theorem setNormal_index (m : SceneMeshObject) (n : List Vec3) :
    (setNormal m n).geometry.index = m.geometry.index := rfl

theorem effectiveNormals_setNormal (m : SceneMeshObject) (n : List Vec3) :
    effectiveNormals (setNormal m n).geometry = n := rfl

theorem setNormal_setNormal (m : SceneMeshObject) (n n' : List Vec3) :
    setNormal (setNormal m n) n' = setNormal m n' := rfl

theorem meshWorldPositionAt_setNormal (m : SceneMeshObject) (n : List Vec3)
    (i : ℕ) : meshWorldPositionAt (setNormal m n) i = meshWorldPositionAt m i :=
  rfl

theorem meshTopZ_setNormal (m : SceneMeshObject) (n : List Vec3) :
    meshTopZ (setNormal m n) = meshTopZ m := rfl

theorem topPlaneToleranceOf_setNormal (st : ℝ) (m : SceneMeshObject)
    (n : List Vec3) :
    topPlaneToleranceOf st (setNormal m n) = topPlaneToleranceOf st m := rfl

theorem meshTopFaceMask_setNormal (su : ℝ) (m : SceneMeshObject)
    (n : List Vec3) (i : ℕ) :
    meshTopFaceMask su (setNormal m n) i = meshTopFaceMask su m i := rfl

theorem vertexQualifiesByHeight_setNormal (st : ℝ) (m : SceneMeshObject)
    (n : List Vec3) (i : ℕ) :
    vertexQualifiesByHeight st (setNormal m n) i =
      vertexQualifiesByHeight st m i := rfl

theorem meshNormalMatrix_setNormal (m : SceneMeshObject) (n : List Vec3) :
    meshNormalMatrix (setNormal m n) = meshNormalMatrix m := rfl

theorem meshInverseNormalMatrix_setNormal (m : SceneMeshObject)
    (n : List Vec3) :
    meshInverseNormalMatrix (setNormal m n) = meshInverseNormalMatrix m := rfl

theorem getD_map_range {α : Type} (n : ℕ) (f : ℕ → α) (i : ℕ) (d : α)
    (hi : i < n) : ((List.range n).map f).getD i d = f i := by
  rw [List.getD_eq_getElem?_getD, List.getElem?_map, List.getElem?_range hi]
  rfl

theorem harmRun_length (st su : ℝ) (fT : Bool) (M : List SceneMeshObject) :
    (harmRun st su fT M).length = M.length := by
  unfold harmRun
  rw [List.length_map, List.length_range]

theorem harmRun_getD (st su : ℝ) (fT : Bool) (M : List SceneMeshObject)
    (mi : ℕ) (hmi : mi < M.length) :
    (harmRun st su fT M).getD mi default =
      setNormal (M.getD mi default) (harmNormals st su fT M mi) := by
  unfold harmRun
  exact getD_map_range _ _ _ _ hmi

theorem harmNormals_getD (st su : ℝ) (fT : Bool) (M : List SceneMeshObject)
    (mi i : ℕ) (hi : i < (M.getD mi default).geometry.position.length) :
    (harmNormals st su fT M mi).getD i ⟨0, 0, 0⟩ =
      harmonizedNormalAt st su fT M mi i := by
  unfold harmNormals
  exact getD_map_range _ _ _ _ hi

theorem harmonize_eq_harmRun (M : List SceneMeshObject) (pt su : ℝ)
    (fT : Bool) :
    harmonizeCountertopNormals M pt su fT =
      if M.isEmpty then M
      else harmRun (if 0 < pt then pt else 2 / 1000) su fT M := rfl

theorem getD_mem {α : Type} (l : List α) (i : ℕ) (d : α) (hi : i < l.length) :
    l.getD i d ∈ l := by
  rw [List.getD_eq_getElem l d hi]
  exact List.getElem_mem hi

/-! ### Bucket contribution lists -/

theorem filterMap_flatMap_eq {α β γ : Type} (l : List α) (g : α → List β)
    (f : β → Option γ) :
    (l.flatMap g).filterMap f = l.flatMap fun a => (g a).filterMap f := by
  induction l with
  | nil => rfl
  | cons a l ih =>
    rw [List.flatMap_cons, List.flatMap_cons, List.filterMap_append, ih]

theorem flatMap_congr_eq {α β : Type} (l : List α) (f g : α → List β)
    (h : ∀ a ∈ l, f a = g a) : l.flatMap f = l.flatMap g := by
  induction l with
  | nil => rfl
  | cons a l ih =>
    rw [List.flatMap_cons, List.flatMap_cons, h a (List.mem_cons_self a l),
      ih (fun x hx => h x (List.mem_cons_of_mem a hx))]

theorem filterMap_congr_eq {α β : Type} (l : List α) (f g : α → Option β)
    (h : ∀ a ∈ l, f a = g a) : l.filterMap f = l.filterMap g := by
  induction l with
  | nil => rfl
  | cons a l ih =>
    simp only [List.filterMap_cons, h a (List.mem_cons_self a l),
      ih (fun x hx => h x (List.mem_cons_of_mem a hx))]

theorem filterMap_filterMap_eq {α β γ : Type} (l : List α) (f : α → Option β)
    (g : β → Option γ) :
    (l.filterMap f).filterMap g = l.filterMap fun x => (f x).bind g := by
  induction l with
  | nil => rfl
  | cons a l ih =>
    cases hfa : f a with
    | none => simp [List.filterMap_cons, hfa, ih]
    | some b => cases hgb : g b <;> simp [List.filterMap_cons, hfa, hgb, ih]

theorem bucketSumFor_eq_contribList (st su : ℝ) (fT : Bool)
    (M : List SceneMeshObject) (k : BucketKey) :
    bucketSumFor st su fT M k = vsum (contribList st su fT M k) := by
  unfold bucketSumFor harmonizeRefs contribList
  congr 1
  rw [filterMap_flatMap_eq]
  refine flatMap_congr_eq _ _ _ (fun mj hmj => ?_)
  rw [filterMap_filterMap_eq]
  refine filterMap_congr_eq _ _ _ (fun j hj => ?_)
  unfold contribOf
  by_cases hq : vertexQualifies st su fT (M.getD mj default) j = true
  · simp only [hq, if_true]
    rfl
  · simp only [hq, if_false]
    rfl

theorem contribOf_some_elim (st su : ℝ) (fT : Bool)
    (M : List SceneMeshObject) (mj j : ℕ) (k : BucketKey) (v : Vec3)
    (h : contribOf st su fT M mj j k = some v) :
    vertexQualifies st su fT (M.getD mj default) j = true ∧
    vertexBucketKey st su fT (M.getD mj default) j = k ∧
    v = vertexSampledNormal st su fT (M.getD mj default) j := by
  unfold contribOf at h
  by_cases hq : vertexQualifies st su fT (M.getD mj default) j = true
  · rw [if_pos hq] at h
    by_cases hk : vertexBucketKey st su fT (M.getD mj default) j = k
    · rw [if_pos hk] at h
      exact ⟨hq, hk, (Option.some.inj h).symm⟩
    · rw [if_neg hk] at h
      cases h
  · rw [if_neg hq] at h
    cases h

theorem contribOf_some_intro (st su : ℝ) (fT : Bool)
    (M : List SceneMeshObject) (mj j : ℕ)
    (hq : vertexQualifies st su fT (M.getD mj default) j = true) :
    contribOf st su fT M mj j
        (vertexBucketKey st su fT (M.getD mj default) j) =
      some (vertexSampledNormal st su fT (M.getD mj default) j) := by
  unfold contribOf
  rw [if_pos hq, if_pos rfl]

theorem contribOf_mem_contribList (st su : ℝ) (fT : Bool)
    (M : List SceneMeshObject) (mj j : ℕ) (k : BucketKey) (v : Vec3)
    (hmj : mj < M.length)
    (hj : j < (M.getD mj default).geometry.position.length)
    (h : contribOf st su fT M mj j k = some v) :
    v ∈ contribList st su fT M k := by
  unfold contribList
  exact List.mem_flatMap.mpr ⟨mj, List.mem_range.mpr hmj,
    List.mem_filterMap.mpr ⟨j, List.mem_range.mpr hj, h⟩⟩

/-! ### Bucket key shapes and sampled-normal facts -/

theorem vertexBucketKey_of_not_topface (st su : ℝ) (fT : Bool)
    (m : SceneMeshObject) (i : ℕ)
    (h : vertexQualifiesByTopFace st su fT m i = false) :
    vertexBucketKey st su fT m i =
      BucketKey.reg (round ((meshWorldPositionAt m i).x / st))
        (round ((meshWorldPositionAt m i).y / st))
        (round ((meshWorldPositionAt m i).z / st)) := by
  unfold vertexBucketKey
  rw [if_neg]
  simp [h]

theorem vertexBucketKey_of_topface (st su : ℝ) (fT : Bool)
    (m : SceneMeshObject) (i : ℕ)
    (h : vertexQualifiesByTopFace st su fT m i = true) :
    vertexBucketKey st su fT m i =
      BucketKey.top (round ((meshWorldPositionAt m i).x / st))
        (round ((meshWorldPositionAt m i).y / st))
        (round ((meshWorldPositionAt m i).z / topBandHeightOf st)) := by
  unfold vertexBucketKey
  rw [if_pos]
  exact h

theorem not_topface_of_key_reg (st su : ℝ) (fT : Bool) (m : SceneMeshObject)
    (i : ℕ) (a b c : ℤ)
    (h : vertexBucketKey st su fT m i = BucketKey.reg a b c) :
    vertexQualifiesByTopFace st su fT m i = false := by
  by_cases htf : vertexQualifiesByTopFace st su fT m i = true
  · rw [vertexBucketKey_of_topface st su fT m i htf] at h
    cases h
  · exact Bool.eq_false_iff.mpr (fun hc => htf hc)

theorem topface_of_key_top (st su : ℝ) (fT : Bool) (m : SceneMeshObject)
    (i : ℕ) (a b c : ℤ)
    (h : vertexBucketKey st su fT m i = BucketKey.top a b c) :
    vertexQualifiesByTopFace st su fT m i = true := by
  by_cases htf : vertexQualifiesByTopFace st su fT m i = true
  · exact htf
  · rw [vertexBucketKey_of_not_topface st su fT m i
      (Bool.eq_false_iff.mpr (fun hc => htf hc))] at h
    cases h

theorem vertexSampledNormal_of_topface (st su : ℝ) (fT : Bool)
    (m : SceneMeshObject) (i : ℕ)
    (h : vertexQualifiesByTopFace st su fT m i = true) :
    vertexSampledNormal st su fT m i = worldUp := by
  unfold vertexSampledNormal
  rw [if_pos h]

theorem vertexSampledNormal_of_not_topface (st su : ℝ) (fT : Bool)
    (m : SceneMeshObject) (i : ℕ)
    (h : vertexQualifiesByTopFace st su fT m i = false) :
    vertexSampledNormal st su fT m i =
      if 0 ≤ vertexUpAlignment m i then vertexWorldNormal m i
      else vsmul (-1) (vertexWorldNormal m i) := by
  unfold vertexSampledNormal
  rw [if_neg]
  simp [h]

theorem vertexUpAlignment_eq_z (m : SceneMeshObject) (i : ℕ) :
    vertexUpAlignment m i = (vertexWorldNormal m i).z := by
  unfold vertexUpAlignment
  exact vdot_worldUp _

theorem sampled_z_of_not_topface (st su : ℝ) (fT : Bool)
    (m : SceneMeshObject) (i : ℕ)
    (h : vertexQualifiesByTopFace st su fT m i = false) :
    (vertexSampledNormal st su fT m i).z = |vertexUpAlignment m i| := by
  rw [vertexSampledNormal_of_not_topface st su fT m i h]
  by_cases h0 : 0 ≤ vertexUpAlignment m i
  · rw [if_pos h0, abs_of_nonneg h0, vertexUpAlignment_eq_z]
  · rw [if_neg h0, abs_of_neg (lt_of_not_le h0), vertexUpAlignment_eq_z]
    unfold vsmul
    dsimp only
    ring

theorem vlength_vnormalize_le_one (v : Vec3) : vlength (vnormalize v) ≤ 1 := by
  by_cases hv : v = ⟨0, 0, 0⟩
  · subst hv
    rw [vnormalize_zero, vlength_zero_vec]
    norm_num
  · exact le_of_eq (vlength_vnormalize v hv)

theorem vlength_sampled_le_one (st su : ℝ) (fT : Bool) (m : SceneMeshObject)
    (i : ℕ) (h : vertexQualifiesByTopFace st su fT m i = false) :
    vlength (vertexSampledNormal st su fT m i) ≤ 1 := by
  rw [vertexSampledNormal_of_not_topface st su fT m i h]
  unfold vertexWorldNormal
  by_cases h0 : 0 ≤ vertexUpAlignment m i
  · rw [if_pos h0]
    exact vlength_vnormalize_le_one _
  · rw [if_neg h0, vlength_vsmul]
    rw [show |(-1 : ℝ)| = 1 by norm_num, one_mul]
    exact vlength_vnormalize_le_one _

theorem su_le_abs_align_of_normal (su : ℝ) (m : SceneMeshObject) (i : ℕ)
    (h : vertexQualifiesByNormal su m i = true) :
    su ≤ |vertexUpAlignment m i| := by
  unfold vertexQualifiesByNormal at h
  exact of_decide_eq_true h

theorem normal_of_qualifies_not_topface (st su : ℝ) (fT : Bool)
    (m : SceneMeshObject) (i : ℕ)
    (hq : vertexQualifies st su fT m i = true)
    (htf : vertexQualifiesByTopFace st su fT m i = false) :
    vertexQualifiesByNormal su m i = true := by
  unfold vertexQualifies at hq
  rw [htf] at hq
  simpa using hq

/-! ### Top and regular bucket sums -/

theorem contribList_top_forall (st su : ℝ) (fT : Bool)
    (M : List SceneMeshObject) (a b c : ℤ) :
    ∀ v ∈ contribList st su fT M (BucketKey.top a b c), v = worldUp := by
  intro v hv
  unfold contribList at hv
  obtain ⟨mj, hmj, hv2⟩ := List.mem_flatMap.mp hv
  obtain ⟨j, hj, hc⟩ := List.mem_filterMap.mp hv2
  obtain ⟨hq, hk, hveq⟩ := contribOf_some_elim _ _ _ _ _ _ _ _ hc
  rw [hveq, vertexSampledNormal_of_topface _ _ _ _ _
    (topface_of_key_top _ _ _ _ _ _ _ _ hk)]

theorem vlengthSq_worldUp : vlengthSq worldUp = 1 := by
  unfold worldUp vlengthSq
  norm_num

theorem bucketSumFor_top_eq (st su : ℝ) (fT : Bool)
    (M : List SceneMeshObject) (a b c : ℤ) :
    bucketSumFor st su fT M (BucketKey.top a b c) =
      vsmul ((contribList st su fT M (BucketKey.top a b c)).length : ℝ)
        worldUp := by
  rw [bucketSumFor_eq_contribList]
  exact vsum_const _ _ (contribList_top_forall st su fT M a b c)

theorem top_bucket_value (st su : ℝ) (fT : Bool) (M : List SceneMeshObject)
    (a b c : ℤ)
    (hne : 1 ≤ (contribList st su fT M (BucketKey.top a b c)).length) :
    ¬ (vlengthSq (bucketSumFor st su fT M (BucketKey.top a b c)) <
        1 / 10 ^ 10) ∧
    vnormalize (bucketSumFor st su fT M (BucketKey.top a b c)) = worldUp := by
  rw [bucketSumFor_top_eq]
  have hn : (1 : ℝ) ≤ ((contribList st su fT M (BucketKey.top a b c)).length : ℝ) := by
    exact_mod_cast hne
  constructor
  · rw [vlengthSq_vsmul, vlengthSq_worldUp, mul_one]
    intro hlt
    nlinarith
  · rw [vnormalize_vsmul_pos _ (by linarith) _, vnormalize_worldUp]

theorem contribList_reg_bound (st su : ℝ) (fT : Bool)
    (M : List SceneMeshObject) (a b c : ℤ) :
    ∀ v ∈ contribList st su fT M (BucketKey.reg a b c),
      max su 0 ≤ v.z ∧ vlength v ≤ 1 := by
  intro v hv
  unfold contribList at hv
  obtain ⟨mj, hmj, hv2⟩ := List.mem_flatMap.mp hv
  obtain ⟨j, hj, hc⟩ := List.mem_filterMap.mp hv2
  obtain ⟨hq, hk, hveq⟩ := contribOf_some_elim _ _ _ _ _ _ _ _ hc
  have htf := not_topface_of_key_reg _ _ _ _ _ _ _ _ hk
  have hnormal := normal_of_qualifies_not_topface _ _ _ _ _ hq htf
  constructor
  · rw [hveq, sampled_z_of_not_topface _ _ _ _ _ htf]
    exact max_le (su_le_abs_align_of_normal _ _ _ hnormal) (abs_nonneg _)
  · rw [hveq]
    exact vlength_sampled_le_one _ _ _ _ _ htf

theorem vnormalize_z (v : Vec3) (hv : v ≠ ⟨0, 0, 0⟩) :
    (vnormalize v).z = v.z / vlength v := by
  rw [vnormalize_of_ne_zero v hv]
  unfold vsmul
  dsimp only
  rw [one_div, inv_mul_eq_div]

theorem bucketSum_ne_zero_of_not_skip (st su : ℝ) (fT : Bool)
    (M : List SceneMeshObject) (k : BucketKey)
    (hnsk : ¬ (vlengthSq (bucketSumFor st su fT M k) < 1 / 10 ^ 10)) :
    bucketSumFor st su fT M k ≠ ⟨0, 0, 0⟩ := by
  intro hc
  apply hnsk
  rw [hc, (vlengthSq_eq_zero_iff _).mpr rfl]
  norm_num

theorem reg_bucket_nhat_z (st su : ℝ) (fT : Bool) (M : List SceneMeshObject)
    (a b c : ℤ)
    (hnsk : ¬ (vlengthSq (bucketSumFor st su fT M (BucketKey.reg a b c)) <
        1 / 10 ^ 10)) :
    max su 0 ≤
      (vnormalize (bucketSumFor st su fT M (BucketKey.reg a b c))).z := by
  have hs0 := bucketSum_ne_zero_of_not_skip st su fT M _ hnsk
  have hL0 : 0 < vlength (bucketSumFor st su fT M (BucketKey.reg a b c)) :=
    vlength_pos_of_ne_zero _ hs0
  rw [vnormalize_z _ hs0]
  rw [bucketSumFor_eq_contribList] at *
  set L := contribList st su fT M (BucketKey.reg a b c) with hLdef
  have hbound := contribList_reg_bound st su fT M a b c
  have hz : ((L.length : ℝ)) * max su 0 ≤ (vsum L).z := by
    rw [vsum_z]
    have := list_sum_ge_length_mul (L.map Vec3.z) (max su 0)
      (fun x hx => by
        obtain ⟨v, hv, rfl⟩ := List.mem_map.mp hx
        exact (hbound v hv).1)
    rwa [List.length_map] at this
  have hlen : vlength (vsum L) ≤ (L.length : ℝ) := by
    refine le_trans (vlength_vsum_le L) ?_
    have := list_sum_le_length (L.map vlength)
      (fun x hx => by
        obtain ⟨v, hv, rfl⟩ := List.mem_map.mp hx
        exact (hbound v hv).2)
    rwa [List.length_map] at this
  rw [le_div_iff hL0]
  have hm0 : 0 ≤ max su 0 := le_max_right su 0
  nlinarith [mul_le_mul_of_nonneg_left hlen hm0]

/-! ### The per-vertex value of one harmonization run -/

theorem meshNormalMatrix_of_identity (m : SceneMeshObject)
    (h : m.matrixWorld = mat4Identity) :
    meshNormalMatrix m = mat3Identity := by
  unfold meshNormalMatrix
  rw [h, getNormalMatrix_identity]

theorem meshInverseNormalMatrix_of_identity (m : SceneMeshObject)
    (h : m.matrixWorld = mat4Identity) :
    meshInverseNormalMatrix m = mat3Identity := by
  unfold meshInverseNormalMatrix
  rw [meshNormalMatrix_of_identity m h, m3invert_identity]

theorem harmonizedNormalAt_of_not_qual (st su : ℝ) (fT : Bool)
    (M : List SceneMeshObject) (mi i : ℕ)
    (h : vertexQualifies st su fT (M.getD mi default) i = false) :
    harmonizedNormalAt st su fT M mi i =
      (effectiveNormals (M.getD mi default).geometry).getD i ⟨0, 0, 0⟩ := by
  simp only [harmonizedNormalAt]
  rw [if_neg (by rw [h]; exact Bool.false_ne_true)]

theorem harmonizedNormalAt_of_flatten (st su : ℝ) (fT : Bool)
    (M : List SceneMeshObject) (mi i : ℕ)
    (hmw : (M.getD mi default).matrixWorld = mat4Identity)
    (hq : vertexQualifies st su fT (M.getD mi default) i = true)
    (htf : vertexQualifiesByTopFace st su fT (M.getD mi default) i = true)
    (hfT : fT = true) :
    harmonizedNormalAt st su fT M mi i = worldUp := by
  subst hfT
  simp only [harmonizedNormalAt]
  rw [if_pos hq, if_pos (by rw [htf]; rfl)]
  rw [meshInverseNormalMatrix_of_identity _ hmw, applyMatrix3_identity,
    vnormalize_worldUp]

theorem harmonizedNormalAt_bucket (st su : ℝ) (fT : Bool)
    (M : List SceneMeshObject) (mi i : ℕ)
    (hq : vertexQualifies st su fT (M.getD mi default) i = true)
    (hnotflat : (fT && vertexQualifiesByTopFace st su fT (M.getD mi default) i)
        = false) :
    harmonizedNormalAt st su fT M mi i =
      (if vlengthSq (bucketSumFor st su fT M
            (vertexBucketKey st su fT (M.getD mi default) i)) < 1 / 10 ^ 10
       then (effectiveNormals (M.getD mi default).geometry).getD i ⟨0, 0, 0⟩
       else vnormalize (applyMatrix3
          (meshInverseNormalMatrix (M.getD mi default))
          (vnormalize (bucketSumFor st su fT M
            (vertexBucketKey st su fT (M.getD mi default) i))))) := by
  simp only [harmonizedNormalAt]
  rw [if_pos hq, if_neg (by rw [hnotflat]; exact Bool.false_ne_true)]

theorem harmonizedNormalAt_of_skip (st su : ℝ) (fT : Bool)
    (M : List SceneMeshObject) (mi i : ℕ)
    (hq : vertexQualifies st su fT (M.getD mi default) i = true)
    (hnotflat : (fT && vertexQualifiesByTopFace st su fT (M.getD mi default) i)
        = false)
    (hsk : vlengthSq (bucketSumFor st su fT M
        (vertexBucketKey st su fT (M.getD mi default) i)) < 1 / 10 ^ 10) :
    harmonizedNormalAt st su fT M mi i =
      (effectiveNormals (M.getD mi default).geometry).getD i ⟨0, 0, 0⟩ := by
  rw [harmonizedNormalAt_bucket st su fT M mi i hq hnotflat, if_pos hsk]

theorem harmonizedNormalAt_of_assigned (st su : ℝ) (fT : Bool)
    (M : List SceneMeshObject) (mi i : ℕ)
    (hmw : (M.getD mi default).matrixWorld = mat4Identity)
    (hq : vertexQualifies st su fT (M.getD mi default) i = true)
    (hnotflat : (fT && vertexQualifiesByTopFace st su fT (M.getD mi default) i)
        = false)
    (hnsk : ¬ (vlengthSq (bucketSumFor st su fT M
        (vertexBucketKey st su fT (M.getD mi default) i)) < 1 / 10 ^ 10)) :
    harmonizedNormalAt st su fT M mi i =
      vnormalize (bucketSumFor st su fT M
        (vertexBucketKey st su fT (M.getD mi default) i)) := by
  rw [harmonizedNormalAt_bucket st su fT M mi i hq hnotflat, if_neg hnsk,
    meshInverseNormalMatrix_of_identity _ hmw, applyMatrix3_identity,
    vnormalize_idempotent]

/-! ### Run-2 per-vertex state -/

theorem vertexWorldNormal_setNormal (m : SceneMeshObject) (n : List Vec3)
    (i : ℕ) :
    vertexWorldNormal (setNormal m n) i =
      vnormalize (applyMatrix3 (meshNormalMatrix m) (n.getD i ⟨0, 0, 0⟩)) :=
  rfl

theorem align_setNormal_of_wn (m : SceneMeshObject) (n : List Vec3) (i : ℕ)
    (hw : vertexWorldNormal (setNormal m n) i = vertexWorldNormal m i) :
    vertexUpAlignment (setNormal m n) i = vertexUpAlignment m i := by
  unfold vertexUpAlignment
  rw [hw]

theorem normalQ_setNormal_of_wn (su : ℝ) (m : SceneMeshObject)
    (n : List Vec3) (i : ℕ)
    (hw : vertexWorldNormal (setNormal m n) i = vertexWorldNormal m i) :
    vertexQualifiesByNormal su (setNormal m n) i =
      vertexQualifiesByNormal su m i := by
  unfold vertexQualifiesByNormal
  rw [align_setNormal_of_wn m n i hw]

theorem topfaceQ_setNormal_of_wn (st su : ℝ) (fT : Bool)
    (m : SceneMeshObject) (n : List Vec3) (i : ℕ)
    (hw : vertexWorldNormal (setNormal m n) i = vertexWorldNormal m i) :
    vertexQualifiesByTopFace st su fT (setNormal m n) i =
      vertexQualifiesByTopFace st su fT m i := by
  unfold vertexQualifiesByTopFace
  rw [meshTopFaceMask_setNormal, vertexQualifiesByHeight_setNormal,
    normalQ_setNormal_of_wn su m n i hw]

theorem qualifies_setNormal_of_wn (st su : ℝ) (fT : Bool)
    (m : SceneMeshObject) (n : List Vec3) (i : ℕ)
    (hw : vertexWorldNormal (setNormal m n) i = vertexWorldNormal m i) :
    vertexQualifies st su fT (setNormal m n) i =
      vertexQualifies st su fT m i := by
  unfold vertexQualifies
  rw [normalQ_setNormal_of_wn su m n i hw,
    topfaceQ_setNormal_of_wn st su fT m n i hw]

theorem key_setNormal_of_wn (st su : ℝ) (fT : Bool) (m : SceneMeshObject)
    (n : List Vec3) (i : ℕ)
    (hw : vertexWorldNormal (setNormal m n) i = vertexWorldNormal m i) :
    vertexBucketKey st su fT (setNormal m n) i =
      vertexBucketKey st su fT m i := by
  simp only [vertexBucketKey]
  rw [meshWorldPositionAt_setNormal, topfaceQ_setNormal_of_wn st su fT m n i hw]

theorem sampled_setNormal_of_wn (st su : ℝ) (fT : Bool) (m : SceneMeshObject)
    (n : List Vec3) (i : ℕ)
    (hw : vertexWorldNormal (setNormal m n) i = vertexWorldNormal m i) :
    vertexSampledNormal st su fT (setNormal m n) i =
      vertexSampledNormal st su fT m i := by
  simp only [vertexSampledNormal]
  rw [topfaceQ_setNormal_of_wn st su fT m n i hw,
    align_setNormal_of_wn m n i hw, hw]

theorem harmonizedNormalAt_of_topface_noflat (st su : ℝ) (fT : Bool)
    (M : List SceneMeshObject) (mi i : ℕ)
    (hmi : mi < M.length)
    (hi : i < (M.getD mi default).geometry.position.length)
    (hmw : (M.getD mi default).matrixWorld = mat4Identity)
    (hq : vertexQualifies st su fT (M.getD mi default) i = true)
    (htf : vertexQualifiesByTopFace st su fT (M.getD mi default) i = true)
    (hfT : fT = false) :
    harmonizedNormalAt st su fT M mi i = worldUp := by
  subst hfT
  obtain ⟨a, b, c, hkey⟩ : ∃ a b c,
      vertexBucketKey st su false (M.getD mi default) i =
        BucketKey.top a b c :=
    ⟨_, _, _, vertexBucketKey_of_topface st su false _ i htf⟩
  have hcontrib := contribOf_some_intro st su false M mi i hq
  rw [hkey] at hcontrib
  have hmem := contribOf_mem_contribList st su false M mi i _ _ hmi hi hcontrib
  have hne : 1 ≤ (contribList st su false M (BucketKey.top a b c)).length :=
    List.length_pos.mpr (List.ne_nil_of_mem hmem)
  obtain ⟨hnsk, hvn⟩ := top_bucket_value st su false M a b c hne
  rw [harmonizedNormalAt_bucket st su false M mi i hq rfl, hkey, if_neg hnsk,
    meshInverseNormalMatrix_of_identity _ hmw, applyMatrix3_identity,
    vnormalize_idempotent, hvn]

theorem run2_state_unqual (st su : ℝ) (fT : Bool) (M : List SceneMeshObject)
    (mj j : ℕ) (hj : j < (M.getD mj default).geometry.position.length)
    (h : vertexQualifies st su fT (M.getD mj default) j = false) :
    vertexQualifies st su fT
      (setNormal (M.getD mj default) (harmNormals st su fT M mj)) j =
      false := by
  have hN := harmonizedNormalAt_of_not_qual st su fT M mj j h
  have hw : vertexWorldNormal
      (setNormal (M.getD mj default) (harmNormals st su fT M mj)) j =
      vertexWorldNormal (M.getD mj default) j := by
    rw [vertexWorldNormal_setNormal]
    unfold vertexWorldNormal
    rw [harmNormals_getD st su fT M mj j hj, hN]
  rw [qualifies_setNormal_of_wn st su fT _ _ j hw, h]

theorem run2_state_reg (st su : ℝ) (fT : Bool) (M : List SceneMeshObject)
    (hid : ∀ m ∈ M, m.matrixWorld = mat4Identity) (mj j : ℕ)
    (hmj : mj < M.length)
    (hj : j < (M.getD mj default).geometry.position.length)
    (hq : vertexQualifies st su fT (M.getD mj default) j = true)
    (htf : vertexQualifiesByTopFace st su fT (M.getD mj default) j = false) :
    vertexQualifies st su fT
        (setNormal (M.getD mj default) (harmNormals st su fT M mj)) j =
      true ∧
    vertexQualifiesByTopFace st su fT
        (setNormal (M.getD mj default) (harmNormals st su fT M mj)) j =
      false ∧
    vertexBucketKey st su fT
        (setNormal (M.getD mj default) (harmNormals st su fT M mj)) j =
      vertexBucketKey st su fT (M.getD mj default) j ∧
    vertexSampledNormal st su fT
        (setNormal (M.getD mj default) (harmNormals st su fT M mj)) j =
      (if vlengthSq (bucketSumFor st su fT M
            (vertexBucketKey st su fT (M.getD mj default) j)) < 1 / 10 ^ 10
       then vertexSampledNormal st su fT (M.getD mj default) j
       else vnormalize (bucketSumFor st su fT M
         (vertexBucketKey st su fT (M.getD mj default) j))) := by
  have hmw := hid _ (getD_mem M mj default hmj)
  have hnotflat : (fT &&
      vertexQualifiesByTopFace st su fT (M.getD mj default) j) = false := by
    rw [htf, Bool.and_false]
  by_cases hsk : vlengthSq (bucketSumFor st su fT M
      (vertexBucketKey st su fT (M.getD mj default) j)) < 1 / 10 ^ 10
  · have hN := harmonizedNormalAt_of_skip st su fT M mj j hq hnotflat hsk
    have hw : vertexWorldNormal
        (setNormal (M.getD mj default) (harmNormals st su fT M mj)) j =
        vertexWorldNormal (M.getD mj default) j := by
      rw [vertexWorldNormal_setNormal]
      unfold vertexWorldNormal
      rw [harmNormals_getD st su fT M mj j hj, hN]
    refine ⟨?_, ?_, ?_, ?_⟩
    · rw [qualifies_setNormal_of_wn st su fT _ _ j hw, hq]
    · rw [topfaceQ_setNormal_of_wn st su fT _ _ j hw, htf]
    · exact key_setNormal_of_wn st su fT _ _ j hw
    · rw [sampled_setNormal_of_wn st su fT _ _ j hw, if_pos hsk]
  · obtain ⟨a, b, c, hkform⟩ : ∃ a b c,
        vertexBucketKey st su fT (M.getD mj default) j =
          BucketKey.reg a b c :=
      ⟨_, _, _, vertexBucketKey_of_not_topface st su fT _ j htf⟩
    have hN := harmonizedNormalAt_of_assigned st su fT M mj j hmw hq
      hnotflat hsk
    have hwv : vertexWorldNormal
        (setNormal (M.getD mj default) (harmNormals st su fT M mj)) j =
        vnormalize (bucketSumFor st su fT M
          (vertexBucketKey st su fT (M.getD mj default) j)) := by
      rw [vertexWorldNormal_setNormal, meshNormalMatrix_of_identity _ hmw,
        applyMatrix3_identity, harmNormals_getD st su fT M mj j hj, hN,
        vnormalize_idempotent]
    have hnz : max su 0 ≤ (vnormalize (bucketSumFor st su fT M
        (vertexBucketKey st su fT (M.getD mj default) j))).z := by
      rw [hkform] at hsk ⊢
      exact reg_bucket_nhat_z st su fT M a b c hsk
    have halign' : vertexUpAlignment
        (setNormal (M.getD mj default) (harmNormals st su fT M mj)) j =
        (vnormalize (bucketSumFor st su fT M
          (vertexBucketKey st su fT (M.getD mj default) j))).z := by
      rw [vertexUpAlignment_eq_z, hwv]
    have halign0 : 0 ≤ vertexUpAlignment
        (setNormal (M.getD mj default) (harmNormals st su fT M mj)) j := by
      rw [halign']
      exact le_trans (le_max_right su 0) hnz
    have hnorm' : vertexQualifiesByNormal su
        (setNormal (M.getD mj default) (harmNormals st su fT M mj)) j =
        true := by
      unfold vertexQualifiesByNormal
      refine decide_eq_true ?_
      rw [abs_of_nonneg halign0, halign']
      exact le_trans (le_max_left su 0) hnz
    have htf2 := htf
    unfold vertexQualifiesByTopFace at htf2
    obtain ⟨hmaskF, hhnF⟩ := Bool.or_eq_false_iff.mp htf2
    have hnormal1 := normal_of_qualifies_not_topface st su fT _ j hq htf
    have hheightF : vertexQualifiesByHeight st (M.getD mj default) j =
        false := by
      cases hh : vertexQualifiesByHeight st (M.getD mj default) j
      · rfl
      · rw [hh, hnormal1] at hhnF
        cases hhnF
    have htf' : vertexQualifiesByTopFace st su fT
        (setNormal (M.getD mj default) (harmNormals st su fT M mj)) j =
        false := by
      unfold vertexQualifiesByTopFace
      rw [meshTopFaceMask_setNormal, vertexQualifiesByHeight_setNormal,
        hmaskF, hheightF, Bool.false_and, Bool.or_false]
    have hq' : vertexQualifies st su fT
        (setNormal (M.getD mj default) (harmNormals st su fT M mj)) j =
        true := by
      unfold vertexQualifies
      rw [hnorm', Bool.true_or]
    have hkey' : vertexBucketKey st su fT
        (setNormal (M.getD mj default) (harmNormals st su fT M mj)) j =
        vertexBucketKey st su fT (M.getD mj default) j := by
      rw [vertexBucketKey_of_not_topface st su fT _ j htf',
        vertexBucketKey_of_not_topface st su fT _ j htf,
        meshWorldPositionAt_setNormal]
    have hsamp' : vertexSampledNormal st su fT
        (setNormal (M.getD mj default) (harmNormals st su fT M mj)) j =
        vnormalize (bucketSumFor st su fT M
          (vertexBucketKey st su fT (M.getD mj default) j)) := by
      rw [vertexSampledNormal_of_not_topface st su fT _ j htf',
        if_pos halign0, hwv]
    exact ⟨hq', htf', hkey', by rw [hsamp', if_neg hsk]⟩

theorem run2_state_top (st su : ℝ) (fT : Bool) (M : List SceneMeshObject)
    (hid : ∀ m ∈ M, m.matrixWorld = mat4Identity) (mj j : ℕ)
    (hmj : mj < M.length)
    (hj : j < (M.getD mj default).geometry.position.length)
    (hq : vertexQualifies st su fT (M.getD mj default) j = true)
    (htf : vertexQualifiesByTopFace st su fT (M.getD mj default) j = true) :
    vertexQualifies st su fT
        (setNormal (M.getD mj default) (harmNormals st su fT M mj)) j =
      false ∨
    ∃ a b c, vertexBucketKey st su fT
        (setNormal (M.getD mj default) (harmNormals st su fT M mj)) j =
      BucketKey.top a b c := by
  have hmw := hid _ (getD_mem M mj default hmj)
  have hN : harmonizedNormalAt st su fT M mj j = worldUp := by
    rcases Bool.eq_false_or_eq_true fT with hfT | hfT
    · exact harmonizedNormalAt_of_flatten st su fT M mj j hmw hq htf hfT
    · exact harmonizedNormalAt_of_topface_noflat st su fT M mj j hmj hj hmw
        hq htf hfT
  have hw : vertexWorldNormal
      (setNormal (M.getD mj default) (harmNormals st su fT M mj)) j =
      worldUp := by
    rw [vertexWorldNormal_setNormal, meshNormalMatrix_of_identity _ hmw,
      applyMatrix3_identity, harmNormals_getD st su fT M mj j hj, hN,
      vnormalize_worldUp]
  have halign : vertexUpAlignment
      (setNormal (M.getD mj default) (harmNormals st su fT M mj)) j = 1 := by
    rw [vertexUpAlignment_eq_z, hw]
    rfl
  have htf2 := htf
  unfold vertexQualifiesByTopFace at htf2
  by_cases hsu : su ≤ 1
  · have hnorm' : vertexQualifiesByNormal su
        (setNormal (M.getD mj default) (harmNormals st su fT M mj)) j =
        true := by
      unfold vertexQualifiesByNormal
      refine decide_eq_true ?_
      rw [halign, abs_one]
      exact hsu
    have htf' : vertexQualifiesByTopFace st su fT
        (setNormal (M.getD mj default) (harmNormals st su fT M mj)) j =
        true := by
      unfold vertexQualifiesByTopFace
      rw [meshTopFaceMask_setNormal, vertexQualifiesByHeight_setNormal,
        hnorm']
      rcases Bool.or_eq_true_iff.mp htf2 with hcase | hcase
      · rw [Bool.or_eq_true_iff]
        exact Or.inl hcase
      · have hh := (Bool.and_eq_true_iff.mp hcase).1
        rw [hh, Bool.true_and, Bool.or_true]
    exact Or.inr ⟨_, _, _, vertexBucketKey_of_topface st su fT _ j htf'⟩
  · have hnorm' : vertexQualifiesByNormal su
        (setNormal (M.getD mj default) (harmNormals st su fT M mj)) j =
        false := by
      unfold vertexQualifiesByNormal
      refine decide_eq_false ?_
      rw [halign, abs_one]
      exact hsu
    by_cases hm : (fT && meshTopFaceMask su (M.getD mj default) j) = true
    · have htf' : vertexQualifiesByTopFace st su fT
          (setNormal (M.getD mj default) (harmNormals st su fT M mj)) j =
          true := by
        unfold vertexQualifiesByTopFace
        rw [meshTopFaceMask_setNormal, Bool.or_eq_true_iff]
        exact Or.inl hm
      exact Or.inr ⟨_, _, _, vertexBucketKey_of_topface st su fT _ j htf'⟩
    · have hmF : (fT && meshTopFaceMask su (M.getD mj default) j) = false :=
        Bool.eq_false_iff.mpr hm
      have htf' : vertexQualifiesByTopFace st su fT
          (setNormal (M.getD mj default) (harmNormals st su fT M mj)) j =
          false := by
        unfold vertexQualifiesByTopFace
        rw [meshTopFaceMask_setNormal, vertexQualifiesByHeight_setNormal,
          hnorm', hmF, Bool.and_false, Bool.or_false]
      left
      unfold vertexQualifies
      rw [hnorm', htf', Bool.or_false]

/-! ### Run-2 bucket sums -/

theorem map_flatMap_eq {α β γ : Type} (l : List α) (g : α → List β)
    (f : β → γ) :
    (l.flatMap g).map f = l.flatMap fun a => (g a).map f := by
  induction l with
  | nil => rfl
  | cons a l ih =>
    rw [List.flatMap_cons, List.flatMap_cons, List.map_append, ih]

theorem map_filterMap_eq {α β γ : Type} (l : List α) (f : α → Option β)
    (g : β → γ) :
    (l.filterMap f).map g = l.filterMap fun x => (f x).map g := by
  induction l with
  | nil => rfl
  | cons a l ih =>
    cases hfa : f a <;> simp [List.filterMap_cons, hfa, ih]

theorem contribList_harmRun_form (st su : ℝ) (fT : Bool)
    (M : List SceneMeshObject) (k : BucketKey) :
    contribList st su fT (harmRun st su fT M) k =
      (List.range M.length).flatMap fun mj =>
        (List.range (M.getD mj default).geometry.position.length).filterMap
          fun j => contribOf st su fT (harmRun st su fT M) mj j k := by
  unfold contribList
  rw [harmRun_length]
  refine flatMap_congr_eq _ _ _ (fun mj hmj => ?_)
  rw [harmRun_getD st su fT M mj (List.mem_range.mp hmj), setNormal_position]

theorem contribOf_harmRun_none (st su : ℝ) (fT : Bool)
    (M : List SceneMeshObject)
    (hid : ∀ m ∈ M, m.matrixWorld = mat4Identity) (mj j : ℕ)
    (hmj : mj < M.length)
    (hj : j < (M.getD mj default).geometry.position.length) (a b c : ℤ)
    (h : contribOf st su fT M mj j (BucketKey.reg a b c) = none) :
    contribOf st su fT (harmRun st su fT M) mj j (BucketKey.reg a b c) =
      none := by
  simp only [contribOf] at h ⊢
  rw [harmRun_getD st su fT M mj hmj]
  by_cases hq : vertexQualifies st su fT (M.getD mj default) j = true
  · rw [if_pos hq] at h
    have hk : ¬ (vertexBucketKey st su fT (M.getD mj default) j =
        BucketKey.reg a b c) := by
      intro hc
      rw [if_pos hc] at h
      cases h
    by_cases htf : vertexQualifiesByTopFace st su fT (M.getD mj default) j =
        true
    · rcases run2_state_top st su fT M hid mj j hmj hj hq htf with
        hq2 | ⟨a', b', c', hk2⟩
      · rw [if_neg (by rw [hq2]; exact Bool.false_ne_true)]
      · by_cases hq2 : vertexQualifies st su fT
            (setNormal (M.getD mj default) (harmNormals st su fT M mj)) j =
            true
        · rw [if_pos hq2, if_neg (by rw [hk2]; simp)]
        · rw [if_neg hq2]
    · have htfF := Bool.eq_false_iff.mpr htf
      obtain ⟨hq2, htf2, hkey2, hsamp2⟩ :=
        run2_state_reg st su fT M hid mj j hmj hj hq htfF
      rw [if_pos hq2, if_neg (by rw [hkey2]; exact hk)]
  · have hqF := Bool.eq_false_iff.mpr hq
    rw [if_neg (by
      rw [run2_state_unqual st su fT M mj j hj hqF]
      exact Bool.false_ne_true)]

theorem contribOf_harmRun_some (st su : ℝ) (fT : Bool)
    (M : List SceneMeshObject)
    (hid : ∀ m ∈ M, m.matrixWorld = mat4Identity) (mj j : ℕ)
    (hmj : mj < M.length)
    (hj : j < (M.getD mj default).geometry.position.length) (a b c : ℤ)
    (v : Vec3)
    (h : contribOf st su fT M mj j (BucketKey.reg a b c) = some v) :
    contribOf st su fT (harmRun st su fT M) mj j (BucketKey.reg a b c) =
      some (if vlengthSq (bucketSumFor st su fT M (BucketKey.reg a b c)) <
              1 / 10 ^ 10 then v
            else vnormalize (bucketSumFor st su fT M
              (BucketKey.reg a b c))) := by
  obtain ⟨hq, hk, hveq⟩ := contribOf_some_elim _ _ _ _ _ _ _ _ h
  have htf := not_topface_of_key_reg _ _ _ _ _ _ _ _ hk
  obtain ⟨hq2, htf2, hkey2, hsamp2⟩ :=
    run2_state_reg st su fT M hid mj j hmj hj hq htf
  simp only [contribOf]
  rw [harmRun_getD st su fT M mj hmj]
  rw [if_pos hq2, if_pos (by rw [hkey2, hk])]
  rw [hsamp2, hk, ← hveq]

theorem contribList_harmRun_reg (st su : ℝ) (fT : Bool)
    (M : List SceneMeshObject)
    (hid : ∀ m ∈ M, m.matrixWorld = mat4Identity) (a b c : ℤ) :
    contribList st su fT (harmRun st su fT M) (BucketKey.reg a b c) =
      (contribList st su fT M (BucketKey.reg a b c)).map
        (fun v =>
          if vlengthSq (bucketSumFor st su fT M (BucketKey.reg a b c)) <
              1 / 10 ^ 10 then v
          else vnormalize (bucketSumFor st su fT M (BucketKey.reg a b c))) := by
  rw [contribList_harmRun_form]
  unfold contribList
  rw [map_flatMap_eq]
  refine flatMap_congr_eq _ _ _ (fun mj hmj => ?_)
  rw [map_filterMap_eq]
  refine filterMap_congr_eq _ _ _ (fun j hj => ?_)
  have hmj' := List.mem_range.mp hmj
  have hj' := List.mem_range.mp hj
  cases hC : contribOf st su fT M mj j (BucketKey.reg a b c) with
  | none =>
    rw [contribOf_harmRun_none st su fT M hid mj j hmj' hj' a b c hC]
    rfl
  | some v =>
    rw [contribOf_harmRun_some st su fT M hid mj j hmj' hj' a b c v hC]
    rfl

theorem bucketSumFor_harmRun_reg_skip (st su : ℝ) (fT : Bool)
    (M : List SceneMeshObject)
    (hid : ∀ m ∈ M, m.matrixWorld = mat4Identity) (a b c : ℤ)
    (hsk : vlengthSq (bucketSumFor st su fT M (BucketKey.reg a b c)) <
        1 / 10 ^ 10) :
    bucketSumFor st su fT (harmRun st su fT M) (BucketKey.reg a b c) =
      bucketSumFor st su fT M (BucketKey.reg a b c) := by
  rw [bucketSumFor_eq_contribList, bucketSumFor_eq_contribList,
    contribList_harmRun_reg st su fT M hid a b c]
  congr 1
  refine (List.map_congr_left fun v hv => ?_).trans (List.map_id _)
  exact if_pos hsk

theorem bucketSumFor_harmRun_reg_assigned (st su : ℝ) (fT : Bool)
    (M : List SceneMeshObject)
    (hid : ∀ m ∈ M, m.matrixWorld = mat4Identity) (a b c : ℤ)
    (hnsk : ¬ (vlengthSq (bucketSumFor st su fT M (BucketKey.reg a b c)) <
        1 / 10 ^ 10)) :
    bucketSumFor st su fT (harmRun st su fT M) (BucketKey.reg a b c) =
      vsmul ((contribList st su fT M (BucketKey.reg a b c)).length : ℝ)
        (vnormalize (bucketSumFor st su fT M (BucketKey.reg a b c))) := by
  rw [bucketSumFor_eq_contribList,
    contribList_harmRun_reg st su fT M hid a b c]
  have hmap : ∀ x ∈ (contribList st su fT M (BucketKey.reg a b c)).map
      (fun v =>
        if vlengthSq (bucketSumFor st su fT M (BucketKey.reg a b c)) <
            1 / 10 ^ 10 then v
        else vnormalize (bucketSumFor st su fT M (BucketKey.reg a b c))),
      x = vnormalize (bucketSumFor st su fT M (BucketKey.reg a b c)) := by
    intro x hx
    obtain ⟨v, hv, rfl⟩ := List.mem_map.mp hx
    exact if_neg hnsk
  rw [vsum_const _ _ hmap, List.length_map]

/-! ### Idempotence of harmonization -/

theorem harmonizedNormalAt_harmRun (st su : ℝ) (fT : Bool)
    (M : List SceneMeshObject)
    (hid : ∀ m ∈ M, m.matrixWorld = mat4Identity) (mi i : ℕ)
    (hmi : mi < M.length)
    (hi : i < (M.getD mi default).geometry.position.length) :
    harmonizedNormalAt st su fT (harmRun st su fT M) mi i =
      harmonizedNormalAt st su fT M mi i := by
  have hmw := hid _ (getD_mem M mi default hmi)
  have hget := harmRun_getD st su fT M mi hmi
  have hmw' : ((harmRun st su fT M).getD mi default).matrixWorld =
      mat4Identity := by
    rw [hget, setNormal_matrixWorld]
    exact hmw
  have hbase : (effectiveNormals
      ((harmRun st su fT M).getD mi default).geometry).getD i ⟨0, 0, 0⟩ =
      harmonizedNormalAt st su fT M mi i := by
    rw [hget, effectiveNormals_setNormal, harmNormals_getD st su fT M mi i hi]
  by_cases hq : vertexQualifies st su fT (M.getD mi default) i = true
  · by_cases htf : vertexQualifiesByTopFace st su fT (M.getD mi default) i =
        true
    · rcases run2_state_top st su fT M hid mi i hmi hi hq htf with
        hq2 | ⟨a, b, c, hk2⟩
      · rw [harmonizedNormalAt_of_not_qual st su fT (harmRun st su fT M) mi i
          (by rw [hget]; exact hq2)]
        exact hbase
      · by_cases hq2 : vertexQualifies st su fT
            ((harmRun st su fT M).getD mi default) i = true
        · have htf2 : vertexQualifiesByTopFace st su fT
              ((harmRun st su fT M).getD mi default) i = true := by
            rw [hget]
            exact topface_of_key_top st su fT _ i a b c hk2
          rcases Bool.eq_false_or_eq_true fT with hfT | hfT
          · rw [harmonizedNormalAt_of_flatten st su fT (harmRun st su fT M)
              mi i hmw' hq2 htf2 hfT,
              harmonizedNormalAt_of_flatten st su fT M mi i hmw hq htf hfT]
          · have hi' : i <
                ((harmRun st su fT M).getD mi default).geometry.position.length := by
              rw [hget, setNormal_position]
              exact hi
            have hmi' : mi < (harmRun st su fT M).length := by
              rw [harmRun_length]
              exact hmi
            rw [harmonizedNormalAt_of_topface_noflat st su fT
              (harmRun st su fT M) mi i hmi' hi' hmw' hq2 htf2 hfT,
              harmonizedNormalAt_of_topface_noflat st su fT M mi i hmi hi hmw
                hq htf hfT]
        · have hq2F := Bool.eq_false_iff.mpr hq2
          rw [harmonizedNormalAt_of_not_qual st su fT (harmRun st su fT M)
            mi i hq2F]
          exact hbase
    · have htfF := Bool.eq_false_iff.mpr htf
      obtain ⟨hq2, htf2, hkey2, hsamp2⟩ :=
        run2_state_reg st su fT M hid mi i hmi hi hq htfF
      obtain ⟨a, b, c, hkform⟩ : ∃ a b c,
          vertexBucketKey st su fT (M.getD mi default) i =
            BucketKey.reg a b c :=
        ⟨_, _, _, vertexBucketKey_of_not_topface st su fT _ i htfF⟩
      have hq2' : vertexQualifies st su fT
          ((harmRun st su fT M).getD mi default) i = true := by
        rw [hget]
        exact hq2
      have htf2' : vertexQualifiesByTopFace st su fT
          ((harmRun st su fT M).getD mi default) i = false := by
        rw [hget]
        exact htf2
      have hnotflat2 : (fT && vertexQualifiesByTopFace st su fT
          ((harmRun st su fT M).getD mi default) i) = false := by
        rw [htf2', Bool.and_false]
      have hnotflat1 : (fT && vertexQualifiesByTopFace st su fT
          (M.getD mi default) i) = false := by
        rw [htfF, Bool.and_false]
      have hkey2' : vertexBucketKey st su fT
          ((harmRun st su fT M).getD mi default) i = BucketKey.reg a b c := by
        rw [hget, hkey2, hkform]
      by_cases hsk : vlengthSq (bucketSumFor st su fT M
          (BucketKey.reg a b c)) < 1 / 10 ^ 10
      · have hs2 := bucketSumFor_harmRun_reg_skip st su fT M hid a b c hsk
        rw [harmonizedNormalAt_of_skip st su fT (harmRun st su fT M) mi i hq2'
          hnotflat2 (by rw [hkey2', hs2]; exact hsk)]
        exact hbase
      · have hs2 := bucketSumFor_harmRun_reg_assigned st su fT M hid a b c hsk
        have hcontrib := contribOf_some_intro st su fT M mi i hq
        rw [hkform] at hcontrib
        have hmem := contribOf_mem_contribList st su fT M mi i _ _ hmi hi
          hcontrib
        have hne : (1 : ℝ) ≤
            ((contribList st su fT M (BucketKey.reg a b c)).length : ℝ) := by
          exact_mod_cast List.length_pos.mpr (List.ne_nil_of_mem hmem)
        have hs0 := bucketSum_ne_zero_of_not_skip st su fT M _ hsk
        have hvl : vlength (vnormalize (bucketSumFor st su fT M
            (BucketKey.reg a b c))) = 1 := vlength_vnormalize _ hs0
        have hvsq : vlengthSq (vnormalize (bucketSumFor st su fT M
            (BucketKey.reg a b c))) = 1 := by
          rw [← vlength_mul_self, hvl]
          norm_num
        have hnsk2 : ¬ (vlengthSq (bucketSumFor st su fT (harmRun st su fT M)
            (BucketKey.reg a b c)) < 1 / 10 ^ 10) := by
          rw [hs2, vlengthSq_vsmul, hvsq, mul_one]
          intro hlt
          nlinarith
        rw [harmonizedNormalAt_of_assigned st su fT (harmRun st su fT M) mi i
          hmw' hq2' hnotflat2 (by rw [hkey2']; exact hnsk2)]
        rw [hkey2', hs2, vnormalize_vsmul_pos _ (by linarith) _,
          vnormalize_idempotent]
        rw [harmonizedNormalAt_of_assigned st su fT M mi i hmw hq hnotflat1
          (by rw [hkform]; exact hsk), hkform]
  · have hqF := Bool.eq_false_iff.mpr hq
    have hq2 := run2_state_unqual st su fT M mi i hi hqF
    rw [harmonizedNormalAt_of_not_qual st su fT (harmRun st su fT M) mi i
      (by rw [hget]; exact hq2)]
    exact hbase

theorem harmRun_congr (st su : ℝ) (fT : Bool)
    (M N : List SceneMeshObject) (hlen : N.length = M.length)
    (hpoint : ∀ mi, mi < M.length →
      setNormal (N.getD mi default) (harmNormals st su fT N mi) =
        setNormal (M.getD mi default) (harmNormals st su fT M mi)) :
    harmRun st su fT N = harmRun st su fT M := by
  unfold harmRun
  rw [hlen]
  exact List.map_congr_left (fun mi hmi => hpoint mi (List.mem_range.mp hmi))

theorem harmRun_idem (st su : ℝ) (fT : Bool) (M : List SceneMeshObject)
    (hid : ∀ m ∈ M, m.matrixWorld = mat4Identity) :
    harmRun st su fT (harmRun st su fT M) = harmRun st su fT M := by
  refine harmRun_congr st su fT M (harmRun st su fT M)
    (harmRun_length st su fT M) (fun mi hmi => ?_)
  rw [harmRun_getD st su fT M mi hmi, setNormal_setNormal]
  congr 1
  unfold harmNormals
  rw [harmRun_getD st su fT M mi hmi, setNormal_position]
  exact List.map_congr_left (fun i hi =>
    harmonizedNormalAt_harmRun st su fT M hid mi i hmi (List.mem_range.mp hi))

/-- C3: normal harmonization is convergent under reapplication.  Running
`harmonizeCountertopNormals` a second time, with the same parameters, on a
mesh set it has already harmonized reproduces the same mesh set, so every
vertex normal is unchanged.  The identity world-matrix hypothesis is the
program invariant: decoded meshes are created and added to `worldRoot`
untransformed (the record transform is baked into the positions during
decoding), so `mesh.matrixWorld` is the identity for every scene mesh. -/
theorem c3_harmonize_idempotent (meshes : List SceneMeshObject)
    (positionTolerance upNormalThreshold : ℝ) (flattenTopFaces : Bool)
    (hid : ∀ m ∈ meshes, m.matrixWorld = mat4Identity) :
    harmonizeCountertopNormals
        (harmonizeCountertopNormals meshes positionTolerance
          upNormalThreshold flattenTopFaces)
        positionTolerance upNormalThreshold flattenTopFaces =
      harmonizeCountertopNormals meshes positionTolerance upNormalThreshold
        flattenTopFaces := by
  by_cases hM : meshes.isEmpty = true
  · have h0 : harmonizeCountertopNormals meshes positionTolerance
        upNormalThreshold flattenTopFaces = meshes := by
      rw [harmonize_eq_harmRun, if_pos hM]
    rw [h0]
    exact h0
  · have h1 : harmonizeCountertopNormals meshes positionTolerance
        upNormalThreshold flattenTopFaces =
        harmRun (if 0 < positionTolerance then positionTolerance else 2 / 1000)
          upNormalThreshold flattenTopFaces meshes := by
      rw [harmonize_eq_harmRun, if_neg hM]
    have hM' : ¬ ((harmRun
        (if 0 < positionTolerance then positionTolerance else 2 / 1000)
        upNormalThreshold flattenTopFaces meshes).isEmpty = true) := by
      rw [List.isEmpty_iff_length_eq_zero, harmRun_length]
      rw [List.isEmpty_iff_length_eq_zero] at hM
      exact hM
    rw [h1, harmonize_eq_harmRun, if_neg hM']
    exact harmRun_idem _ _ _ meshes hid

theorem c3_witness :
    (∀ m ∈ [c3FixtureMesh], m.matrixWorld = mat4Identity) ∧
    harmonizeCountertopNormals
        (harmonizeCountertopNormals [c3FixtureMesh] (12 / 1000) (1 / 2) true)
        (12 / 1000) (1 / 2) true =
      harmonizeCountertopNormals [c3FixtureMesh] (12 / 1000) (1 / 2) true :=
  ⟨fun m hm => by
      rw [List.mem_singleton] at hm
      subst hm
      rfl,
   c3_harmonize_idempotent [c3FixtureMesh] (12 / 1000) (1 / 2) true
     (fun m hm => by
       rw [List.mem_singleton] at hm
       subst hm
       rfl)⟩
